import Mathlib

/-!
Verification development for the Aliya WhatsApp health-assistant bot.

The definitions below are a shallow embedding of the bot's single source
module (the `client.on('message')` handler, its flow-step tables, the
health-score calculator, and the reminder schedulers) together with the
database/LLM collaborators modelled at their interface boundary:

* the text-generation collaborator returns `Option String`
  (`none` = generation failed);
* the persistence collaborator's save operations report success as a
  `Bool` (`false` = the user row was not found); `saveUserProfile` in the
  source either returns `true` or throws, so it is modelled as always
  succeeding;
* time is modelled as an integer count of milliseconds since the epoch,
  with calendar dates at UTC midnight (the source manipulates JS `Date`
  values; DST and non-UTC process timezones are outside the model);
* `new Date(string)` parsing is modelled for ISO `YYYY-MM-DD` inputs, the
  format the prompts request; other JS-parseable formats map to `none`
  (JS "Invalid Date"), for which `node-schedule` arms nothing.

Theorems about the claims follow the definitions.
-/

namespace Aliya

/-- ASCII lowering of one character (the source's strings are ASCII, so
JS `toLowerCase` coincides with this on every string that matters). -/
def lowerChar (c : Char) : Char :=
  if 'A' ≤ c ∧ c ≤ 'Z' then Char.ofNat (c.toNat + 32) else c

/-- JS `String.prototype.toLowerCase()` on ASCII strings. -/
def jsToLower (s : String) : String := ⟨s.data.map lowerChar⟩

/-- ASCII whitespace test used by the `trim`/`parseInt` models. -/
def isWs (c : Char) : Bool := c = ' ' ∨ c = '\t' ∨ c = '\n' ∨ c = '\r'

/-- JS `String.prototype.trim()` (ASCII whitespace). -/
def jsTrim (s : String) : String :=
  ⟨((s.data.dropWhile isWs).reverse.dropWhile isWs).reverse⟩

/-- JS `String.prototype.toLowerCase().trim()` applied to the inbound
message body (`const userMessage = message.body.toLowerCase().trim()`). -/
def normalizeMsg (s : String) : String := jsTrim (jsToLower s)

/-- JS `String.prototype.startsWith`. -/
def strStarts (pre s : String) : Bool := s.data.take pre.data.length == pre.data

/-- Digit-run value used by the `parseInt` model. -/
def digitsVal (cs : List Char) : Nat :=
  cs.foldl (fun a c => a * 10 + (c.toNat - 48)) 0

/-- JS `parseInt(s)` (radix 10): skip leading whitespace, optional sign,
then the maximal leading digit run; `none` models `NaN`. -/
def jsParseInt (s : String) : Option Int :=
  let cs := s.data.dropWhile isWs
  let core : List Char → Bool → Option Int := fun ds neg =>
    let digs := ds.takeWhile Char.isDigit
    if digs.isEmpty then none
    else some (if neg then -(digitsVal digs : Int) else (digitsVal digs : Int))
  match cs with
  | '-' :: rest => core rest true
  | '+' :: rest => core rest false
  | _ => core cs false

/-- Milliseconds per day. -/
def msPerDay : Int := 86400000

/-- Gregorian leap-year test. -/
def isLeap (y : Int) : Bool := y % 4 == 0 && (y % 100 != 0 || y % 400 == 0)

/-- Length of a month. -/
def daysInMonth (y m : Int) : Int :=
  if m = 2 then (if isLeap y then 29 else 28)
  else if m = 4 ∨ m = 6 ∨ m = 9 ∨ m = 11 then 30
  else 31

/-- Days since 1970-01-01 of a civil date (Gregorian calendar). -/
def daysFromCivil (y m d : Int) : Int :=
  let y1 := if m ≤ 2 then y - 1 else y
  let era := (if 0 ≤ y1 then y1 else y1 - 399) / 400
  let yoe := y1 - era * 400
  let mp := (m + 9) % 12
  let doy := (153 * mp + 2) / 5 + d - 1
  let doe := yoe * 365 + yoe / 4 - yoe / 100 + doy
  era * 146097 + doe - 719468

/-- Civil date of a count of days since 1970-01-01. -/
def civilFromDays (z0 : Int) : Int × Int × Int :=
  let z := z0 + 719468
  let era := (if 0 ≤ z then z else z - 146096) / 146097
  let doe := z - era * 146097
  let yoe := (doe - doe / 1460 + doe / 36524 - doe / 146096) / 365
  let y := yoe + era * 400
  let doy := doe - (365 * yoe + yoe / 4 - yoe / 100)
  let mp := (5 * doy + 2) / 153
  let d := doy - (153 * mp + 2) / 5 + 1
  let m := if mp < 10 then mp + 3 else mp - 9
  (if m ≤ 2 then y + 1 else y, m, d)

/-- Split a character list into the maximal groups separated by a dash. -/
def splitDash : List Char → List (List Char)
  | [] => [[]]
  | c :: cs =>
    if c = '-' then [] :: splitDash cs
    else
      match splitDash cs with
      | g :: gs => (c :: g) :: gs
      | [] => [[c]]

/-- `new Date("YYYY-MM-DD")` for a date-only ISO string: the civil date,
interpreted at UTC midnight; `none` models JS "Invalid Date". -/
def parseIsoDate (s : String) : Option (Int × Int × Int) :=
  match splitDash s.data with
  | [ys, ms, ds] =>
    if ys.length = 4 ∧ ms.length = 2 ∧ ds.length = 2 ∧
       ys.all Char.isDigit ∧ ms.all Char.isDigit ∧ ds.all Char.isDigit then
      let y : Int := digitsVal ys
      let m : Int := digitsVal ms
      let d : Int := digitsVal ds
      if 1 ≤ m ∧ m ≤ 12 ∧ 1 ≤ d ∧ d ≤ daysInMonth y m then some (y, m, d)
      else none
    else none
  | _ => none

/-- Zero-pad a numeral to two characters. -/
def pad2 (n : Int) : String :=
  if n < 10 then "0" ++ toString n else toString n

/-- The date part of JS `Date.prototype.toISOString()`. -/
def formatIsoDate (y m d : Int) : String :=
  toString y ++ "-" ++ pad2 m ++ "-" ++ pad2 d

/-- UTC-midnight instant (ms since epoch) of a civil date. -/
def dateMs (y m d : Int) : Int := daysFromCivil y m d * msPerDay

/-- One step of a data-collection flow: the `answers` key it fills, the
prompt shown for it, and its validation predicate (`some err` = reject,
mirroring the source's `validate(input)` returning an error string or
`null`). -/
structure FlowStep where
  field : String
  prompt : String
  validate : String → Option String

/-- Split a character list on commas (JS `String.prototype.split(',')`). -/
def splitComma : List Char → List (List Char)
  | [] => [[]]
  | c :: cs =>
    if c = ',' then [] :: splitComma cs
    else
      match splitComma cs with
      | g :: gs => (c :: g) :: gs
      | [] => [[c]]

/-- ONBOARDING_STEPS of the source. -/
def ONBOARDING_STEPS : List FlowStep := [
  { field := "name", prompt := "Please provide your name.",
    validate := fun input => if jsTrim input ≠ "" then none else some "Name cannot be empty." },
  { field := "age", prompt := "Please provide your age (e.g., 25).",
    validate := fun input =>
      match jsParseInt input with
      | none => some "Please provide a valid age (1-120)."
      | some age => if age < 1 ∨ age > 120 then some "Please provide a valid age (1-120)." else none },
  { field := "sex", prompt := "Please provide your sex (male, female, other).",
    validate := fun input =>
      if ["male", "female", "other"].contains (jsToLower input) then none
      else some "Please provide male, female, or other." },
  { field := "height_cm", prompt := "Please provide your height in centimeters (e.g., 170).",
    validate := fun input =>
      match jsParseInt input with
      | none => some "Please provide a valid height (50-300 cm)."
      | some h => if h < 50 ∨ h > 300 then some "Please provide a valid height (50-300 cm)." else none },
  { field := "weight_kg", prompt := "Please provide your weight in kilograms (e.g., 70).",
    validate := fun input =>
      match jsParseInt input with
      | none => some "Please provide a valid weight (20-500 kg)."
      | some w => if w < 20 ∨ w > 500 then some "Please provide a valid weight (20-500 kg)." else none },
  { field := "location", prompt := "Please provide your location (e.g., New York).",
    validate := fun input => if jsTrim input ≠ "" then none else some "Location cannot be empty." },
  { field := "medical_history", prompt := "Please provide a brief medical history (or type \"none\").",
    validate := fun _ => none },
  { field := "chronic_conditions", prompt := "Please list any chronic conditions (or type \"none\").",
    validate := fun _ => none },
  { field := "allergies", prompt := "Please list any allergies (or type \"none\").",
    validate := fun _ => none },
  { field := "medications", prompt := "Please list any current medications (or type \"none\").",
    validate := fun _ => none }]

/-- MENSTRUAL_CYCLE_STEP of the source. -/
def MENSTRUAL_CYCLE_STEP : FlowStep :=
  { field := "menstrual_cycle_type",
    prompt := "Please specify your menstrual cycle type (regular, irregular, or none).",
    validate := fun input =>
      if ["regular", "irregular", "none"].contains (jsToLower input) then none
      else some "Please provide regular, irregular, or none." }

/-- DIAGNOSIS_STEPS of the source. -/
def DIAGNOSIS_STEPS : List FlowStep := [
  { field := "symptoms", prompt := "Please describe your symptoms (e.g., fever, cough).",
    validate := fun input => if jsTrim input ≠ "" then none else some "Symptoms cannot be empty." },
  { field := "severity", prompt := "How severe are your symptoms? (mild, moderate, severe)",
    validate := fun input =>
      if ["mild", "moderate", "severe"].contains (jsToLower input) then none
      else some "Please provide mild, moderate, or severe." },
  { field := "duration", prompt := "How long have you had these symptoms? (e.g., 2 days, 1 week)",
    validate := fun input => if jsTrim input ≠ "" then none else some "Duration cannot be empty." }]

/-- Shared shape of the often/sometimes/rarely/never validators. -/
def freqValidate (input : String) : Option String :=
  if ["often", "sometimes", "rarely", "never"].contains (jsToLower input) then none
  else some "Please provide often, sometimes, rarely, or never."

/-- Shared shape of the yes/no validators. -/
def yesNoValidate (input : String) : Option String :=
  if ["yes", "no"].contains (jsToLower input) then none
  else some "Please provide yes or no."

/-- ASSESSMENT_STEPS of the source (sixteen questions). -/
def ASSESSMENT_STEPS : List FlowStep := [
  { field := "overall_health",
    prompt := "How would you rate your overall health? (excellent, good, fair, poor)",
    validate := fun input =>
      if ["excellent", "good", "fair", "poor"].contains (jsToLower input) then none
      else some "Please provide excellent, good, fair, or poor." },
  { field := "fatigue_after_sleep",
    prompt := "Do you often feel fatigued even after adequate sleep? (often, sometimes, rarely, never)",
    validate := freqValidate },
  { field := "fruit_veggie_servings",
    prompt := "How many servings of fruits/vegetables do you eat daily? (e.g., 3)",
    validate := fun input =>
      match jsParseInt input with
      | none => some "Please provide a valid number (0-20)."
      | some n => if n < 0 ∨ n > 20 then some "Please provide a valid number (0-20)." else none },
  { field := "sugary_drinks_snacks",
    prompt := "Do you consume sugary drinks or snacks daily? (yes, no)",
    validate := yesNoValidate },
  { field := "exercise_days",
    prompt := "How many days per week do you exercise ≥30 minutes? (0-7)",
    validate := fun input =>
      match jsParseInt input with
      | none => some "Please provide a valid number (0-7)."
      | some n => if n < 0 ∨ n > 7 then some "Please provide a valid number (0-7)." else none },
  { field := "breaks_from_sitting",
    prompt := "Do you take breaks from sitting every hour? (yes, no)",
    validate := yesNoValidate },
  { field := "sleep_hours",
    prompt := "On average, how many hours do you sleep per night? (e.g., 7)",
    validate := fun input =>
      match jsParseInt input with
      | none => some "Please provide a valid number (0-24)."
      | some n => if n < 0 ∨ n > 24 then some "Please provide a valid number (0-24)." else none },
  { field := "wake_refreshed",
    prompt := "Do you wake up feeling refreshed most mornings? (often, sometimes, rarely, never)",
    validate := freqValidate },
  { field := "stress_anxiety",
    prompt := "How often do you feel stressed or anxious? (often, sometimes, rarely, never)",
    validate := freqValidate },
  { field := "relaxation_techniques",
    prompt := "Do you practice relaxation techniques? (yes, no)",
    validate := yesNoValidate },
  { field := "chronic_conditions",
    prompt := "Do you have any diagnosed chronic conditions? (yes, no)",
    validate := yesNoValidate },
  { field := "family_history",
    prompt := "Is there a family history of heart disease or diabetes? (yes, no)",
    validate := yesNoValidate },
  { field := "smoking_vaping",
    prompt := "Do you smoke or vape? (yes, no)",
    validate := yesNoValidate },
  { field := "alcohol_drinks",
    prompt := "How many alcoholic drinks do you have weekly? (e.g., 2)",
    validate := fun input =>
      match jsParseInt input with
      | none => some "Please provide a valid number (0-100)."
      | some n => if n < 0 ∨ n > 100 then some "Please provide a valid number (0-100)." else none },
  { field := "headaches_body_aches",
    prompt := "Do you experience frequent headaches or body aches? (often, sometimes, rarely, never)",
    validate := freqValidate },
  { field := "weight_changes",
    prompt := "Have you had unexplained weight changes in the past year? (yes, no)",
    validate := yesNoValidate }]

/-- FITNESS_STEPS of the source. -/
def FITNESS_STEPS : List FlowStep := [
  { field := "fitness_goal",
    prompt := "What is your fitness goal? (e.g., weight loss, muscle gain, general fitness)",
    validate := fun input =>
      if ["weight loss", "muscle gain", "general fitness"].contains (jsToLower input) then none
      else some "Please provide weight loss, muscle gain, or general fitness." },
  { field := "activity_level",
    prompt := "What is your current activity level? (beginner, intermediate, advanced)",
    validate := fun input =>
      if ["beginner", "intermediate", "advanced"].contains (jsToLower input) then none
      else some "Please provide beginner, intermediate, or advanced." },
  { field := "available_days",
    prompt := "How many days per week can you exercise? (0-7)",
    validate := fun input =>
      match jsParseInt input with
      | none => some "Please provide a valid number (0-7)."
      | some n => if n < 0 ∨ n > 7 then some "Please provide a valid number (0-7)." else none },
  { field := "available_minutes",
    prompt := "How many minutes can you exercise per session? (e.g., 30)",
    validate := fun input =>
      match jsParseInt input with
      | none => some "Please provide a valid number (10-180 minutes)."
      | some n => if n < 10 ∨ n > 180 then some "Please provide a valid number (10-180 minutes)." else none }]

/-- MEAL_STEPS of the source. -/
def MEAL_STEPS : List FlowStep := [
  { field := "dietary_preference",
    prompt := "What is your dietary preference? (e.g., vegetarian, vegan, omnivore)",
    validate := fun input =>
      if ["vegetarian", "vegan", "omnivore"].contains (jsToLower input) then none
      else some "Please provide vegetarian, vegan, or omnivore." },
  { field := "health_goal",
    prompt := "What is your health goal? (e.g., weight loss, muscle gain, general health)",
    validate := fun input =>
      if ["weight loss", "muscle gain", "general health"].contains (jsToLower input) then none
      else some "Please provide weight loss, muscle gain, or general health." },
  { field := "meals_per_day",
    prompt := "How many meals do you want per day? (2-5)",
    validate := fun input =>
      match jsParseInt input with
      | none => some "Please provide a valid number (2-5)."
      | some n => if n < 2 ∨ n > 5 then some "Please provide a valid number (2-5)." else none }]

/-- CYCLE_STEPS of the source. The first step compares `new Date(input)`
with `new Date()` (the current instant), so the resolved list takes the
current time as a parameter. -/
def CYCLE_STEPS (nowMs : Int) : List FlowStep := [
  { field := "last_period_date",
    prompt := "When did your last period start? (e.g., YYYY-MM-DD, like 2025-04-01)",
    validate := fun input =>
      match parseIsoDate input with
      | none => some "Please provide a valid past date in YYYY-MM-DD format."
      | some (y, m, d) =>
        if dateMs y m d > nowMs then some "Please provide a valid past date in YYYY-MM-DD format."
        else none },
  { field := "average_cycle_length",
    prompt := "What is your average cycle length in days? (e.g., 28, typically 21-35)",
    validate := fun input =>
      match jsParseInt input with
      | none => some "Please provide a valid number (21-35 days)."
      | some n => if n < 21 ∨ n > 35 then some "Please provide a valid number (21-35 days)." else none }]

/-- The `^([0-1]?[0-9]|2[0-3]):[0-5][0-9]$` time regex of the medication
flow, modelled by direct case analysis on the character list. -/
def timeRegexTest (cs : List Char) : Bool :=
  match cs with
  | [h, ':', m1, m2] =>
    h.isDigit && ('0' ≤ m1 && m1 ≤ '5') && m2.isDigit
  | [h1, h2, ':', m1, m2] =>
    (((h1 = '0' ∨ h1 = '1') && h2.isDigit) || (h1 = '2' && ('0' ≤ h2 && h2 ≤ '3'))) &&
      ('0' ≤ m1 && m1 ≤ '5') && m2.isDigit
  | _ => false

/-- MEDICATION_STEPS of the source. -/
def MEDICATION_STEPS : List FlowStep := [
  { field := "medication_name", prompt := "What is the name of the medication? (e.g., Ibuprofen)",
    validate := fun input => if jsTrim input ≠ "" then none else some "Medication name cannot be empty." },
  { field := "dosage", prompt := "What is the dosage? (e.g., 200 mg, 1 tablet)",
    validate := fun input => if jsTrim input ≠ "" then none else some "Dosage cannot be empty." },
  { field := "schedule_time",
    prompt := "What time should I remind you to take it? (e.g., 08:00, in 24-hour format)",
    validate := fun input =>
      if timeRegexTest input.data then none
      else some "Please provide a valid time in HH:MM format (e.g., 08:00)." },
  { field := "days_of_week", prompt := "Which days should I remind you? (e.g., Daily or Mon,Wed,Fri)",
    validate := fun input =>
      if jsToLower input = "daily" then none
      else
        let days := (splitComma input.data).map (fun d => jsTrim ⟨d⟩)
        let validDays := ["mon", "tue", "wed", "thu", "fri", "sat", "sun"]
        if days.all (fun day => validDays.contains (jsToLower day)) then none
        else some "Please provide \"Daily\" or days like Mon,Wed,Fri." }]

/-- The onboarding branch's step resolution: `[...ONBOARDING_STEPS]`,
extended with MENSTRUAL_CYCLE_STEP when `userState.data.sex === 'female'`
and the list does not already contain a step with that field. -/
def resolveOnboardingSteps (answers : List (String × String)) : List FlowStep :=
  let steps := ONBOARDING_STEPS
  if answers.lookup "sex" == some "female" &&
     !(steps.any (fun s => s.field == "menstrual_cycle_type")) then
    steps ++ [MENSTRUAL_CYCLE_STEP]
  else steps

/-- The sixteen assessment answers, each the stored (normalized) message
text for its step. Mirrors the fields `calculateHealthScore` reads from
`userState.data`. -/
structure AssessmentAnswers where
  overall_health : String
  fatigue_after_sleep : String
  fruit_veggie_servings : String
  sugary_drinks_snacks : String
  exercise_days : String
  breaks_from_sitting : String
  sleep_hours : String
  wake_refreshed : String
  stress_anxiety : String
  relaxation_techniques : String
  chronic_conditions : String
  family_history : String
  smoking_vaping : String
  alcohol_drinks : String
  headaches_body_aches : String
  weight_changes : String
deriving DecidableEq, Repr

/-- `switch (data.overall_health.toLowerCase())` contribution. -/
def scoreOverall (s : String) : Nat :=
  if jsToLower s = "excellent" then 10
  else if jsToLower s = "good" then 7
  else if jsToLower s = "fair" then 4
  else 0

/-- never 6 / rarely 4 / sometimes 2 / default 0 (fatigue, stress,
headaches switches). -/
def scoreSymptomFreq (s : String) : Nat :=
  if jsToLower s = "never" then 6
  else if jsToLower s = "rarely" then 4
  else if jsToLower s = "sometimes" then 2
  else 0

/-- Servings and exercise-days banding; `none` models `parseInt` NaN,
whose JS comparisons are all false, contributing 0. -/
def scoreBand852 (s : String) : Nat :=
  match jsParseInt s with
  | none => 0
  | some n => if n ≥ 5 then 8 else if n ≥ 3 then 5 else if n ≥ 1 then 2 else 0

/-- Sleep-hours banding. -/
def scoreSleep (s : String) : Nat :=
  match jsParseInt s with
  | none => 0
  | some n =>
    if n ≥ 7 ∧ n ≤ 9 then 8
    else if (n ≥ 5 ∧ n < 7) ∨ (n > 9 ∧ n ≤ 11) then 4
    else 0

/-- often 6 / sometimes 4 / rarely 2 / default 0 (wake-refreshed switch). -/
def scoreWake (s : String) : Nat :=
  if jsToLower s = "often" then 6
  else if jsToLower s = "sometimes" then 4
  else if jsToLower s = "rarely" then 2
  else 0

/-- Alcohol banding. -/
def scoreAlcohol (s : String) : Nat :=
  match jsParseInt s with
  | none => 0
  | some n => if n = 0 then 6 else if n ≤ 7 then 4 else if n ≤ 14 then 2 else 0

/-- Fixed points when the lowered answer equals the favorable token. -/
def scoreIfEq (favorable : String) (pts : Nat) (s : String) : Nat :=
  if jsToLower s = favorable then pts else 0

/-- `calculateHealthScore` of the source: the sum of the sixteen `score +=`
contributions. -/
def calculateHealthScore (data : AssessmentAnswers) : Nat :=
  scoreOverall data.overall_health +
  scoreSymptomFreq data.fatigue_after_sleep +
  scoreBand852 data.fruit_veggie_servings +
  scoreIfEq "no" 6 data.sugary_drinks_snacks +
  scoreBand852 data.exercise_days +
  scoreIfEq "yes" 6 data.breaks_from_sitting +
  scoreSleep data.sleep_hours +
  scoreWake data.wake_refreshed +
  scoreSymptomFreq data.stress_anxiety +
  scoreIfEq "yes" 6 data.relaxation_techniques +
  scoreIfEq "no" 6 data.chronic_conditions +
  scoreIfEq "no" 5 data.family_history +
  scoreIfEq "no" 6 data.smoking_vaping +
  scoreAlcohol data.alcohol_drinks +
  scoreSymptomFreq data.headaches_body_aches +
  scoreIfEq "no" 5 data.weight_changes

/-- `calculateNextPeriod` of the source: parse the last period date, add
`parseInt(cycleLength)` days, format as the ISO date part. Inputs for
which JS would produce an invalid date (and then throw on `toISOString`)
map to the sentinel "Invalid Date"; the flow validates both inputs before
this is called. -/
def calculateNextPeriod (lastPeriodDate cycleLength : String) : String :=
  match parseIsoDate lastPeriodDate, jsParseInt cycleLength with
  | some (y, m, d), some n =>
    let c := civilFromDays (daysFromCivil y m d + n)
    formatIsoDate c.1 c.2.1 c.2.2
  | _, _ => "Invalid Date"

/-- A medication reminder row (persistence projection used by the
medication flow). -/
structure MedReminder where
  medication_name : String
  dosage : String
  schedule_time : String
  days_of_week : String
deriving DecidableEq, Repr

/-- A job armed through `node-schedule`: either a one-shot at an absolute
instant or a recurring calendar rule. -/
inductive Sched where
  | periodOneShot (userId : String) (atMs : Int) (predicted : String)
  | assessmentOneShot (userId : String) (atMs : Int)
  | followUpOneShot (userId : String) (atMs : Int)
  | medRecurring (userId : String) (data : MedReminder)
  | fitnessDaily (userId : String)
  | mealDaily (userId : String)
deriving DecidableEq, Repr

/-- The firing instant of a one-shot job (`none` for recurring rules). -/
def oneShotInstant : Sched → Option Int
  | .periodOneShot _ t _ => some t
  | .assessmentOneShot _ t => some t
  | .followUpOneShot _ t => some t
  | _ => none

/-- `schedulePeriodReminder`: three days before the predicted date; if
that instant is already past, skip arming. An unparseable predicted date
gives an invalid JS Date, for which `node-schedule` arms nothing. -/
def schedulePeriodReminder (nowMs : Int) (userId : String) (predictedDate : String) : List Sched :=
  match parseIsoDate predictedDate with
  | none => []
  | some (y, m, d) =>
    let reminderMs := dateMs y m d - 3 * msPerDay
    if reminderMs < nowMs then [] else [.periodOneShot userId reminderMs predictedDate]

/-- `scheduleAssessmentReminder`: one-shot 48 hours from now. -/
def scheduleAssessmentReminder (nowMs : Int) (userId : String) : List Sched :=
  [.assessmentOneShot userId (nowMs + 48 * 3600000)]

/-- `scheduleFollowUpReminder`: one-shot 2 days from now, armed only when
the recorded severity is "severe". -/
def scheduleFollowUpReminder (nowMs : Int) (userId : String) (severity : String) : List Sched :=
  if jsToLower severity ≠ "severe" then []
  else [.followUpOneShot userId (nowMs + 2 * msPerDay)]

/-- `scheduleMedicationReminder`: recurring daily or weekday rule built
from the collected answers. -/
def scheduleMedicationReminder (userId : String) (data : MedReminder) : List Sched :=
  [.medRecurring userId data]

/-- `scheduleFitnessReminder`: recurring daily at 07:00. -/
def scheduleFitnessReminder (userId : String) : List Sched := [.fitnessDaily userId]

/-- `scheduleMealReminder`: recurring daily at 08:00. -/
def scheduleMealReminder (userId : String) : List Sched := [.mealDaily userId]

/-- The `userState.state` tags of the source. -/
inductive FlowState where
  | initial
  | awaiting_tnc_response
  | onboarding
  | awaiting_assessment_choice
  | diagnosing
  | assessing
  | fitness
  | meal
  | cycle_update_choice
  | cycle_tracking
  | medication_choice
  | medication_select_update
  | medication_setup
deriving DecidableEq, Repr

/-- One user's Session. `answers` models the string fields of
`userState.data` (JS object as association list, insertion order), and
`existingReminders` models the `data.existingReminders` array of the
medication flow. A missing `step` field (JS `undefined`) is modelled
as 0. -/
structure UserState where
  state : FlowState
  answers : List (String × String)
  existingReminders : List MedReminder
  step : Nat
deriving DecidableEq, Repr

/-- `{ state: 'initial', data: {} }`. -/
def initState : UserState := ⟨.initial, [], [], 0⟩

/-- The `sex` / `menstrual_cycle_type` projection returned by
`getUserDetails`. -/
structure UserDetails where
  sex : String
  menstrual_cycle_type : String
deriving DecidableEq, Repr

/-- The menstrual-cycle row returned by `getMenstrualCycle`. -/
structure CycleRecord where
  last_period_date : String
  average_cycle_length : String
  predicted_next_period : String
deriving DecidableEq, Repr

/-- The external collaborators' responses for the one message being
processed, at their interface boundary: onboarding check, profile
projection, cycle row, medication rows, the text-generation result
(`none` = generation failed), the save outcome reported by the
persistence writes that can return `false` (user row not found), and the
current time. `saveUserProfile` either returns `true` or throws in the
source, so it has no flag here. -/
structure Env where
  onboarded : Bool
  userDetails : Option UserDetails
  cycleRecord : Option CycleRecord
  medReminders : List MedReminder
  genResult : Option String
  saveOk : Bool
  nowMs : Int
deriving DecidableEq, Repr

/-- What one run of the message handler did: every `userStates.set` call
in order, every `message.reply` in order, and every job armed. -/
structure HandlerResult where
  writes : List UserState
  replies : List String
  scheduled : List Sched
deriving DecidableEq, Repr

/-- The Session visible in the store after the handler ran: the last
`userStates.set`, or the prior state if no set happened. -/
def finalStateOf (st : UserState) (r : HandlerResult) : UserState :=
  r.writes.getLast?.getD st

/-- JS object field assignment `data[k] = v` on the association list. -/
def setField : List (String × String) → String → String → List (String × String)
  | [], k, v => [(k, v)]
  | (k0, v0) :: rest, k, v =>
    if k0 = k then (k, v) :: rest else (k0, v0) :: setField rest k v

/-- Field read `data[k]`, defaulting to "" (a JS `undefined` read never
happens on the paths the handler takes with the fields it stored). -/
def getField (answers : List (String × String)) (k : String) : String :=
  (answers.lookup k).getD ""

/-- Lines 1266-1268 of the handler, shared verbatim by all flows:
`userState.data[step.field] = userMessage; userState.step = currentStep + 1;
userStates.set(userId, userState)`. -/
def storeAdvance (st : UserState) (field um : String) : UserState :=
  { st with answers := setField st.answers field um, step := st.step + 1 }

/-- `steps[i].prompt` (all uses are in-bounds in the source). -/
def promptAt (steps : List FlowStep) (i : Nat) : String :=
  ((steps.get? i).map FlowStep.prompt).getD ""

-- Reply strings of the source (ASCII apostrophes written as \x27).

def HELP_MESSAGE : String :=
  "\n*Aliya Health Assistant - Available Commands*\n\n/start - Begin the onboarding process (if not already completed)\n/diagnose - Analyze symptoms and get potential conditions (after onboarding)\n/assessment - Take a health assessment test (after onboarding)\n/fitness - Get a personalized fitness plan (after onboarding)\n/meal - Get a personalized meal plan (after onboarding)\n/cycle - Track or update your menstrual cycle (after onboarding, for applicable users)\n/medication - Set or update medication reminders (after onboarding)\n/ask - Ask general health-related questions (after onboarding)\n/help - Show this help menu\n/cancel - Cancel the current operation (e.g., onboarding, diagnosis)\n"

def INTRODUCTION_MESSAGE : String :=
  "\nHello! I\x27m Aliya, your health assistant on WhatsApp. I can help with symptom analysis, health assessments, fitness and meal plans, menstrual cycle tracking, medication reminders, and general health questions.\n\n⚠️ *Disclaimer*: I am not a doctor. My advice is for informational purposes only and should not replace professional medical advice.\n\n📋 *Terms and Conditions*:\n- I will collect and store your personal and health data (e.g., name, age, medical history) to provide personalized services.\n- Your data will be stored securely in a database and used only for health-related features.\n- You can stop using my services at any time, and your data will be handled per our privacy policy.\n\nPlease reply with *accept* to agree to the terms and start onboarding, or *deny* to exit.\n"

def cancelIdleReply : String :=
  "No operation to cancel. Send /start to begin or /help for commands."

def cancelDoneReply : String :=
  "Operation cancelled. Send /start to begin again or /help for commands."

def alreadyOnboardedReply : String :=
  "You’ve already completed onboarding! Use /help to see available commands."

def onboardFirstReply : String :=
  "Please complete onboarding first. Send /start to begin."

def profileErrorReply : String :=
  "Error retrieving your profile. Please try again with /start."

def cycleIneligibleReply : String :=
  "This feature is only available for users with a menstrual cycle. Use /help for other commands."

def cycleDetailsReply (c : CycleRecord) : String :=
  "\n*Your Menstrual Cycle Details*\n\n- Last Period: " ++ c.last_period_date ++
  "\n- Average Cycle Length: " ++ c.average_cycle_length ++
  " days\n- Predicted Next Period: " ++ c.predicted_next_period ++
  "\n\nWould you like to update your cycle details? Reply with *yes* to update or *no* to keep this data.\n        "

def medListLine (r : MedReminder) : String :=
  "- " ++ r.medication_name ++ ": " ++ r.dosage ++ " at " ++ r.schedule_time ++
  " on " ++ r.days_of_week ++ "\n"

def medListReply (rs : List MedReminder) : String :=
  "*Your Medication Reminders*\n\n" ++ rs.foldl (fun acc r => acc ++ medListLine r) "" ++
  "\nWould you like to add a new reminder or update an existing one? Reply with *add* or *update*."

def askUsageReply : String :=
  "Please provide a health-related question after /ask (e.g., /ask What is a balanced diet?)."

def askFailReply : String :=
  "Sorry, I couldn’t answer your question. Please try again or consult a healthcare professional."

def askAnswerReply (question answer : String) : String :=
  "\n*Health Question Answer*\n\n**Question**: " ++ question ++ "\n\n" ++ answer ++
  "\n\n⚠️ *Please consult a doctor for personalized health advice.*\nUse /ask to ask another question or /help for other commands.\n      "

def tncDenyReply : String :=
  "Thank you for your time. If you change your mind, send /start to begin again. Goodbye!"

def tncRepromptReply : String :=
  "Please reply with *accept* or *deny* to continue."

def onboardingCompleteReply : String :=
  "Onboarding complete! Would you like to take a health assessment test now, later, or never? Reply with *now*, *later*, or *never*."

def assessLaterReply : String :=
  "Alright, I’ll remind you in 48 hours. You can also start anytime with /assessment."

def assessNeverReply : String :=
  "Got it. You can always start the assessment later with /assessment. Use /help for other commands."

def assessChoiceRepromptReply : String :=
  "Please reply with *now*, *later*, or *never*."

def diagGenFailReply : String :=
  "Sorry, I couldn’t analyze your symptoms. Please try again or consult a doctor."

def diagSaveFailReply : String :=
  "Error saving diagnosis. Please try again or consult a doctor."

def diagResultsReply (analysis : String) : String :=
  "\n*Symptom Analysis Results*\n\n" ++ analysis ++
  "\n\n⚠️ *Please consult a doctor for a professional diagnosis and treatment.*\nUse /diagnose to report new symptoms or /help for other commands.\n        "

def assessGenFailReply : String :=
  "Sorry, I couldn’t analyze your health assessment. Please try again with /assessment."

def assessSaveFailReply : String :=
  "Error saving health assessment. Please try again with /assessment."

def assessResultsReply (score : Nat) (analysis : String) : String :=
  "\n*Health Assessment Results*\n\n**Score**: " ++ toString score ++ "/100\n\n" ++ analysis ++
  "\n\n⚠️ *Please consult a doctor for personalized health advice.*\nUse /assessment to take another test or /help for other commands.\n        "

def fitnessGenFailReply : String :=
  "Sorry, I couldn’t generate your fitness plan. Please try again with /fitness."

def fitnessSaveFailReply : String :=
  "Error saving your fitness plan. Please try again with /fitness."

def fitnessResultsReply (plan : String) : String :=
  "\n*Your Personalized Fitness Plan*\n\n" ++ plan ++
  "\n\nI’ll remind you daily at 7:00 AM to follow this plan. Use /fitness to generate a new plan or /help for other commands.\n        "

def mealGenFailReply : String :=
  "Sorry, I couldn’t generate your meal plan. Please try again with /meal."

def mealSaveFailReply : String :=
  "Error saving your meal plan. Please try again with /meal."

def mealResultsReply (plan : String) : String :=
  "\n*Your Personalized Meal Plan*\n\n" ++ plan ++
  "\n\nI’ll remind you daily at 8:00 AM to follow this plan. Use /meal to generate a new plan or /help for other commands.\n        "

def cycleKeepReply : String :=
  "Got it. Your cycle data remains unchanged. Use /cycle to update later or /help for other commands."

def cycleChoiceRepromptReply : String :=
  "Please reply with *yes* or *no*."

def cycleSaveFailReply : String :=
  "Error saving your cycle data. Please try again with /cycle."

def cycleResultsReply (lp acl pred : String) : String :=
  "\n*Menstrual Cycle Tracking*\n\n- Last Period: " ++ lp ++
  "\n- Average Cycle Length: " ++ acl ++ " days\n- Predicted Next Period: " ++ pred ++
  "\n\nI\x27ll remind you 3 days before your predicted period. Use /cycle to update your details or /help for other commands.\n        "

def medChoiceRepromptReply : String :=
  "Please reply with *add* or *update*."

def medSelectListReply (rs : List MedReminder) : String :=
  "*Which medication would you like to update?*\n\n" ++
  (rs.foldl (fun (p : String × Nat) r =>
    (p.1 ++ toString (p.2 + 1) ++ ". " ++ r.medication_name ++ ": " ++ r.dosage ++
      " at " ++ r.schedule_time ++ " on " ++ r.days_of_week ++ "\n", p.2 + 1)) ("", 0)).1 ++
  "\nReply with the number of the medication to update (e.g., 1)."

def medSelectInvalidReply : String :=
  "Please reply with a valid number from the list."

def medSaveFailReply : String :=
  "Error saving your medication reminder. Please try again with /medication."

def medSetReply (md : MedReminder) : String :=
  "\n*Medication Reminder Set*\n\n- Medication: " ++ md.medication_name ++
  "\n- Dosage: " ++ md.dosage ++ "\n- Time: " ++ md.schedule_time ++
  "\n- Days: " ++ md.days_of_week ++
  "\n\nI\x27ll remind you as scheduled. Use /medication to add or update reminders, or /help for other commands.\n        "

def fallbackReply : String :=
  "I didn’t understand that. Please use a command like /start or /help to get started."

/-- The step-advancement shape shared verbatim by the seven flow branches
of the handler: if the flow is exhausted, finalize; otherwise validate,
reject without any state write on error, or store-and-advance and either
prompt the next step or finalize (the source's two finalization sites per
flow are textually identical). -/
def runFlowStep (steps : List FlowStep) (finalize : UserState → HandlerResult)
    (st : UserState) (um : String) : HandlerResult :=
  match steps.get? st.step with
  | none => finalize st
  | some stp =>
    match stp.validate um with
    | some err => ⟨[], [err], []⟩
    | none =>
      let st' := storeAdvance st stp.field um
      match steps.get? st'.step with
      | some nxt => ⟨[st'], [nxt.prompt], []⟩
      | none =>
        let r := finalize st'
        ⟨st' :: r.writes, r.replies, r.scheduled⟩

/-- Onboarding finalization: `saveUserProfile` (returns `true` or throws)
then hand over to the assessment choice. -/
def finalizeOnboarding (_st : UserState) : HandlerResult :=
  ⟨[⟨.awaiting_assessment_choice, [], [], 0⟩], [onboardingCompleteReply], []⟩

/-- Diagnosis finalization: `analyzeSymptoms`, `saveDiagnosis`, follow-up
reminder (severe only), results reply; Session reset on every path. -/
def finalizeDiagnosing (env : Env) (uid : String) (st : UserState) : HandlerResult :=
  match env.genResult with
  | none => ⟨[initState], [diagGenFailReply], []⟩
  | some analysis =>
    if env.saveOk then
      ⟨[initState], [diagResultsReply analysis],
        scheduleFollowUpReminder env.nowMs uid (getField st.answers "severity")⟩
    else ⟨[initState], [diagSaveFailReply], []⟩

/-- Read the sixteen assessment fields out of `userState.data`. -/
def assessDataOf (answers : List (String × String)) : AssessmentAnswers :=
  ⟨getField answers "overall_health", getField answers "fatigue_after_sleep",
   getField answers "fruit_veggie_servings", getField answers "sugary_drinks_snacks",
   getField answers "exercise_days", getField answers "breaks_from_sitting",
   getField answers "sleep_hours", getField answers "wake_refreshed",
   getField answers "stress_anxiety", getField answers "relaxation_techniques",
   getField answers "chronic_conditions", getField answers "family_history",
   getField answers "smoking_vaping", getField answers "alcohol_drinks",
   getField answers "headaches_body_aches", getField answers "weight_changes"⟩

/-- Assessment finalization: score, `analyzeHealthAssessment`,
`saveAssessment`, results reply; Session reset on every path. -/
def finalizeAssessing (env : Env) (st : UserState) : HandlerResult :=
  let score := calculateHealthScore (assessDataOf st.answers)
  match env.genResult with
  | none => ⟨[initState], [assessGenFailReply], []⟩
  | some analysis =>
    if env.saveOk then ⟨[initState], [assessResultsReply score analysis], []⟩
    else ⟨[initState], [assessSaveFailReply], []⟩

/-- Fitness finalization: `generateFitnessPlan`, `saveFitnessPlan`, daily
reminder, results reply; Session reset on every path. -/
def finalizeFitness (env : Env) (uid : String) (_st : UserState) : HandlerResult :=
  match env.genResult with
  | none => ⟨[initState], [fitnessGenFailReply], []⟩
  | some plan =>
    if env.saveOk then
      ⟨[initState], [fitnessResultsReply plan], scheduleFitnessReminder uid⟩
    else ⟨[initState], [fitnessSaveFailReply], []⟩

/-- Meal finalization: `generateMealPlan`, `saveMealPlan`, daily reminder,
results reply; Session reset on every path. -/
def finalizeMeal (env : Env) (uid : String) (_st : UserState) : HandlerResult :=
  match env.genResult with
  | none => ⟨[initState], [mealGenFailReply], []⟩
  | some plan =>
    if env.saveOk then
      ⟨[initState], [mealResultsReply plan], scheduleMealReminder uid⟩
    else ⟨[initState], [mealSaveFailReply], []⟩

/-- Cycle-tracking finalization: predict the next period,
`saveMenstrualCycle`, period pre-reminder, results reply; Session reset on
every path. -/
def finalizeCycle (env : Env) (uid : String) (st : UserState) : HandlerResult :=
  let lp := getField st.answers "last_period_date"
  let acl := getField st.answers "average_cycle_length"
  let pred := calculateNextPeriod lp acl
  if env.saveOk then
    ⟨[initState], [cycleResultsReply lp acl pred], schedulePeriodReminder env.nowMs uid pred⟩
  else ⟨[initState], [cycleSaveFailReply], []⟩

/-- Medication finalization: `saveMedicationReminder`, recurring reminder,
summary reply; Session reset on every path. -/
def finalizeMedication (env : Env) (uid : String) (st : UserState) : HandlerResult :=
  let md : MedReminder :=
    ⟨getField st.answers "medication_name", getField st.answers "dosage",
     getField st.answers "schedule_time", getField st.answers "days_of_week"⟩
  if env.saveOk then
    ⟨[initState], [medSetReply md], scheduleMedicationReminder uid md⟩
  else ⟨[initState], [medSaveFailReply], []⟩

/-- JS `String.prototype.slice(4)` (byte/char offset into the raw body). -/
def jsSlice (s : String) (n : Nat) : String := ⟨s.data.drop n⟩

/-- The `/cancel` branch of the handler. -/
def cancelCommand (st0 : UserState) : HandlerResult :=
  if st0.state = .initial then ⟨[], [cancelIdleReply], []⟩
  else ⟨[initState], [cancelDoneReply], []⟩

/-- The `/start` branch of the handler. -/
def startCommand (env : Env) : HandlerResult :=
  if env.onboarded then ⟨[initState], [alreadyOnboardedReply], []⟩
  else ⟨[⟨.awaiting_tnc_response, [], [], 0⟩], [INTRODUCTION_MESSAGE], []⟩

/-- The shared onboarding gate of the flow-launch commands: reject with
guidance if the user has not onboarded, else run the launch. -/
def launchGate (env : Env) (launch : HandlerResult) : HandlerResult :=
  if !env.onboarded then ⟨[], [onboardFirstReply], []⟩ else launch

/-- The `/cycle` branch of the handler (after the onboarding gate):
profile check, eligibility check, then either the update-choice prompt on
an existing record or the start of the cycle-tracking flow. -/
def cycleCommand (env : Env) : HandlerResult :=
  match env.userDetails with
  | none => ⟨[], [profileErrorReply], []⟩
  | some d =>
    if jsToLower d.sex ≠ "female" ∨ jsToLower d.menstrual_cycle_type = "none" then
      ⟨[], [cycleIneligibleReply], []⟩
    else
      match env.cycleRecord with
      | some c => ⟨[⟨.cycle_update_choice, [], [], 0⟩], [cycleDetailsReply c], []⟩
      | none => ⟨[⟨.cycle_tracking, [], [], 0⟩], [promptAt (CYCLE_STEPS env.nowMs) 0], []⟩

/-- The `/medication` branch of the handler (after the onboarding gate). -/
def medicationCommand (env : Env) : HandlerResult :=
  if env.medReminders.isEmpty then
    ⟨[⟨.medication_setup, [], [], 0⟩], [promptAt MEDICATION_STEPS 0], []⟩
  else
    ⟨[⟨.medication_choice, [], env.medReminders, 0⟩], [medListReply env.medReminders], []⟩

/-- The `/ask` branch of the handler (after the onboarding gate);
`message.body.slice(4)` works on the raw body. -/
def askCommand (env : Env) (body : String) : HandlerResult :=
  if jsTrim (jsSlice body 4) = "" then ⟨[], [askUsageReply], []⟩
  else
    match env.genResult with
    | none => ⟨[], [askFailReply], []⟩
    | some answer => ⟨[], [askAnswerReply (jsTrim (jsSlice body 4)) answer], []⟩

/-- The command router: the source's chain of early-returning `if`s on
the exact global commands and the `/ask` prefix; `none` means no command
intercepted the message and mid-flow dispatch proceeds. -/
def routeCommand (env : Env) (st0 : UserState) (um body : String) :
    Option HandlerResult :=
  if um = "/help" then some ⟨[], [HELP_MESSAGE], []⟩
  else if um = "/cancel" then some (cancelCommand st0)
  else if um = "/start" then some (startCommand env)
  else if um = "/diagnose" then
    some (launchGate env ⟨[⟨.diagnosing, [], [], 0⟩], [promptAt DIAGNOSIS_STEPS 0], []⟩)
  else if um = "/assessment" then
    some (launchGate env ⟨[⟨.assessing, [], [], 0⟩], [promptAt ASSESSMENT_STEPS 0], []⟩)
  else if um = "/fitness" then
    some (launchGate env ⟨[⟨.fitness, [], [], 0⟩], [promptAt FITNESS_STEPS 0], []⟩)
  else if um = "/meal" then
    some (launchGate env ⟨[⟨.meal, [], [], 0⟩], [promptAt MEAL_STEPS 0], []⟩)
  else if um = "/cycle" then some (launchGate env (cycleCommand env))
  else if um = "/medication" then some (launchGate env (medicationCommand env))
  else if strStarts "/ask" um then some (launchGate env (askCommand env body))
  else none

/-- The mid-flow dispatch on the Session's `state`. -/
def dispatchState (env : Env) (userId : String) (st0 : UserState) (um : String) :
    HandlerResult :=
  match st0.state with
    | .awaiting_tnc_response =>
      if um = "accept" then
        ⟨[⟨.onboarding, [], [], 0⟩], [promptAt ONBOARDING_STEPS 0], []⟩
      else if um = "deny" then ⟨[initState], [tncDenyReply], []⟩
      else ⟨[], [tncRepromptReply], []⟩
    | .onboarding =>
      runFlowStep (resolveOnboardingSteps st0.answers) finalizeOnboarding st0 um
    | .awaiting_assessment_choice =>
      if um = "now" then ⟨[⟨.assessing, [], [], 0⟩], [promptAt ASSESSMENT_STEPS 0], []⟩
      else if um = "later" then
        ⟨[initState], [assessLaterReply], scheduleAssessmentReminder env.nowMs userId⟩
      else if um = "never" then ⟨[initState], [assessNeverReply], []⟩
      else ⟨[], [assessChoiceRepromptReply], []⟩
    | .diagnosing => runFlowStep DIAGNOSIS_STEPS (finalizeDiagnosing env userId) st0 um
    | .assessing => runFlowStep ASSESSMENT_STEPS (finalizeAssessing env) st0 um
    | .fitness => runFlowStep FITNESS_STEPS (finalizeFitness env userId) st0 um
    | .meal => runFlowStep MEAL_STEPS (finalizeMeal env userId) st0 um
    | .cycle_update_choice =>
      if um = "yes" then
        ⟨[⟨.cycle_tracking, [], [], 0⟩], [promptAt (CYCLE_STEPS env.nowMs) 0], []⟩
      else if um = "no" then ⟨[initState], [cycleKeepReply], []⟩
      else ⟨[], [cycleChoiceRepromptReply], []⟩
    | .cycle_tracking => runFlowStep (CYCLE_STEPS env.nowMs) (finalizeCycle env userId) st0 um
    | .medication_choice =>
      if um = "add" then
        ⟨[⟨.medication_setup, [], [], 0⟩], [promptAt MEDICATION_STEPS 0], []⟩
      else if um = "update" then
        ⟨[⟨.medication_select_update, st0.answers, st0.existingReminders, 0⟩],
          [medSelectListReply st0.existingReminders], []⟩
      else ⟨[], [medChoiceRepromptReply], []⟩
    | .medication_select_update =>
      match jsParseInt um with
      | none => ⟨[], [medSelectInvalidReply], []⟩
      | some k =>
        if k - 1 < 0 ∨ k - 1 ≥ (st0.existingReminders.length : Int) then
          ⟨[], [medSelectInvalidReply], []⟩
        else
          ⟨[⟨.medication_setup,
             [("medication_name",
               (st0.existingReminders.getD (k - 1).toNat ⟨"", "", "", ""⟩).medication_name)],
             [], 1⟩],
            [promptAt MEDICATION_STEPS 1], []⟩
    | .medication_setup => runFlowStep MEDICATION_STEPS (finalizeMedication env userId) st0 um
    | .initial => ⟨[], [fallbackReply], []⟩

/-- The body of the `client.on('message')` handler with the normalized
`userMessage` passed explicitly: command routing first, mid-flow dispatch
otherwise. -/
def handlerCore (env : Env) (userId : String) (st0 : UserState) (um body : String) :
    HandlerResult :=
  match routeCommand env st0 um body with
  | some r => r
  | none => dispatchState env userId st0 um

/-- The `client.on('message')` handler:
`const userMessage = message.body.toLowerCase().trim()` followed by the
routing body. -/
def handleMessage (env : Env) (userId : String) (st0 : UserState) (body : String) :
    HandlerResult :=
  handlerCore env userId st0 (normalizeMsg body) body

/-- The process-wide `userStates` map, keyed by user identifier. -/
abbrev SessionStore := List (String × UserState)

/-- `userStates.get(userId) || { state: 'initial', data: {} }`. -/
def getSession (store : SessionStore) (userId : String) : UserState :=
  (store.lookup userId).getD initState

/-- Map update for one key (`userStates.set(userId, st)`). -/
def setSession : SessionStore → String → UserState → SessionStore
  | [], userId, st => [(userId, st)]
  | (k, v) :: rest, userId, st =>
    if k = userId then (userId, st) :: rest else (k, v) :: setSession rest userId st

/-- Process one inbound `(userId, body)` event against the store: run the
handler on that user's Session and apply its `userStates.set` calls (the
store changes only if the handler called `set`). -/
def processIncoming (store : SessionStore) (env : Env) (userId : String) (body : String) :
    SessionStore × HandlerResult :=
  match (handleMessage env userId (getSession store userId) body).writes with
  | [] => (store, handleMessage env userId (getSession store userId) body)
  | _ =>
    (setSession store userId
      (finalStateOf (getSession store userId)
        (handleMessage env userId (getSession store userId) body)),
     handleMessage env userId (getSession store userId) body)

/-- The step list the handler resolves for a Session in a given flow
state; `none` for the states that are not mid-flow step collection. -/
def stepsFor (env : Env) (s : FlowState) (answers : List (String × String)) :
    Option (List FlowStep) :=
  match s with
  | .onboarding => some (resolveOnboardingSteps answers)
  | .diagnosing => some DIAGNOSIS_STEPS
  | .assessing => some ASSESSMENT_STEPS
  | .fitness => some FITNESS_STEPS
  | .meal => some MEAL_STEPS
  | .cycle_tracking => some (CYCLE_STEPS env.nowMs)
  | .medication_setup => some MEDICATION_STEPS
  | _ => none

/-- The finalization the handler runs for each flow. -/
def finalizeFor (env : Env) (uid : String) : FlowState → UserState → HandlerResult
  | .onboarding => finalizeOnboarding
  | .diagnosing => finalizeDiagnosing env uid
  | .assessing => finalizeAssessing env
  | .fitness => finalizeFitness env uid
  | .meal => finalizeMeal env uid
  | .cycle_tracking => finalizeCycle env uid
  | .medication_setup => finalizeMedication env uid
  | _ => fun _ => ⟨[], [], []⟩

/-- Does the command router intercept this normalized message before any
mid-flow processing? (the exact global commands plus the `/ask` prefix). -/
def isGlobalCommand (um : String) : Bool :=
  um == "/help" || um == "/cancel" || um == "/start" || um == "/diagnose" ||
  um == "/assessment" || um == "/fitness" || um == "/meal" || um == "/cycle" ||
  um == "/medication" || strStarts "/ask" um

/-- Does finalization of this flow fail under these collaborator
responses? The four text-generation flows fail when generation returns no
result or the save reports failure; cycle tracking and medication setup
have no generation call. -/
def finalizationFails (s : FlowState) (env : Env) : Bool :=
  match s with
  | .diagnosing | .assessing | .fitness | .meal => env.genResult.isNone || !env.saveOk
  | .cycle_tracking | .medication_setup => !env.saveOk
  | _ => false

/-- The flow-specific apology each finalization failure replies with. -/
def apologyFor (s : FlowState) (env : Env) : String :=
  match s with
  | .diagnosing => if env.genResult.isNone then diagGenFailReply else diagSaveFailReply
  | .assessing => if env.genResult.isNone then assessGenFailReply else assessSaveFailReply
  | .fitness => if env.genResult.isNone then fitnessGenFailReply else fitnessSaveFailReply
  | .meal => if env.genResult.isNone then mealGenFailReply else mealSaveFailReply
  | .cycle_tracking => cycleSaveFailReply
  | .medication_setup => medSaveFailReply
  | _ => ""

/-- Does step `i` of the assessment flow accept this stored answer? -/
def stepAccepts (i : Nat) (s : String) : Bool :=
  match ASSESSMENT_STEPS.get? i with
  | some stp => (stp.validate s).isNone
  | none => false

/-- Every field passes the validator of its own assessment step. -/
def validAssessment (a : AssessmentAnswers) : Bool :=
  stepAccepts 0 a.overall_health && stepAccepts 1 a.fatigue_after_sleep &&
  stepAccepts 2 a.fruit_veggie_servings && stepAccepts 3 a.sugary_drinks_snacks &&
  stepAccepts 4 a.exercise_days && stepAccepts 5 a.breaks_from_sitting &&
  stepAccepts 6 a.sleep_hours && stepAccepts 7 a.wake_refreshed &&
  stepAccepts 8 a.stress_anxiety && stepAccepts 9 a.relaxation_techniques &&
  stepAccepts 10 a.chronic_conditions && stepAccepts 11 a.family_history &&
  stepAccepts 12 a.smoking_vaping && stepAccepts 13 a.alcohol_drinks &&
  stepAccepts 14 a.headaches_body_aches && stepAccepts 15 a.weight_changes

/-- The sum of the sixteen per-question maxima of the scoring table
(overall 10, three symptom-frequency 6, servings 8, sugary 6, exercise 8,
sitting 6, sleep 8, wake 6, stress 6, relaxation 6, chronic 6, family 5,
smoking 6, alcohol 6, weight 5). -/
def MAX_HEALTH_SCORE : Nat := 10 + 6 + 8 + 6 + 8 + 6 + 8 + 6 + 6 + 6 + 6 + 5 + 6 + 6 + 6 + 5

theorem scoreOverall_le (s : String) : scoreOverall s ≤ 10 := by
  unfold scoreOverall
  repeat' split
  all_goals omega

theorem scoreSymptomFreq_le (s : String) : scoreSymptomFreq s ≤ 6 := by
  unfold scoreSymptomFreq
  repeat' split
  all_goals omega

theorem scoreBand852_le (s : String) : scoreBand852 s ≤ 8 := by
  unfold scoreBand852
  repeat' split
  all_goals omega

theorem scoreSleep_le (s : String) : scoreSleep s ≤ 8 := by
  unfold scoreSleep
  repeat' split
  all_goals omega

theorem scoreWake_le (s : String) : scoreWake s ≤ 6 := by
  unfold scoreWake
  repeat' split
  all_goals omega

theorem scoreAlcohol_le (s : String) : scoreAlcohol s ≤ 6 := by
  unfold scoreAlcohol
  repeat' split
  all_goals omega

theorem scoreIfEq_le (fav : String) (pts : Nat) (s : String) : scoreIfEq fav pts s ≤ pts := by
  unfold scoreIfEq
  split
  all_goals omega

/-- C3: calculateHealthScore is a total function of the sixteen stored
assessment answers; on every per-step-validated answer set it yields a
score in [0, MAX] with MAX the sum of the per-question maxima, and
identical answer sets yield identical scores. -/
theorem calculateHealthScore_total_deterministic_bounded :
    ∀ a b : AssessmentAnswers, validAssessment a = true →
      calculateHealthScore a ≤ MAX_HEALTH_SCORE ∧ 0 ≤ calculateHealthScore a ∧
      (b = a → calculateHealthScore b = calculateHealthScore a) := by
  intro a b _hv
  refine ⟨?_, Nat.zero_le _, fun hb => by rw [hb]⟩
  unfold calculateHealthScore MAX_HEALTH_SCORE
  have h1 := scoreOverall_le a.overall_health
  have h2 := scoreSymptomFreq_le a.fatigue_after_sleep
  have h3 := scoreBand852_le a.fruit_veggie_servings
  have h4 := scoreIfEq_le "no" 6 a.sugary_drinks_snacks
  have h5 := scoreBand852_le a.exercise_days
  have h6 := scoreIfEq_le "yes" 6 a.breaks_from_sitting
  have h7 := scoreSleep_le a.sleep_hours
  have h8 := scoreWake_le a.wake_refreshed
  have h9 := scoreSymptomFreq_le a.stress_anxiety
  have h10 := scoreIfEq_le "yes" 6 a.relaxation_techniques
  have h11 := scoreIfEq_le "no" 6 a.chronic_conditions
  have h12 := scoreIfEq_le "no" 5 a.family_history
  have h13 := scoreIfEq_le "no" 6 a.smoking_vaping
  have h14 := scoreAlcohol_le a.alcohol_drinks
  have h15 := scoreSymptomFreq_le a.headaches_body_aches
  have h16 := scoreIfEq_le "no" 5 a.weight_changes
  omega

/-- Witness for C3 at a concrete validated answer set (which attains the
maximal score). -/
theorem calculateHealthScore_total_deterministic_bounded_witness :
    validAssessment ⟨"excellent", "never", "5", "no", "5", "yes", "8", "often", "never",
      "yes", "no", "no", "no", "0", "never", "no"⟩ = true ∧
    calculateHealthScore ⟨"excellent", "never", "5", "no", "5", "yes", "8", "often", "never",
      "yes", "no", "no", "no", "0", "never", "no"⟩ ≤ MAX_HEALTH_SCORE :=
  ⟨by decide,
   (calculateHealthScore_total_deterministic_bounded _
     ⟨"excellent", "never", "5", "no", "5", "yes", "8", "often", "never",
      "yes", "no", "no", "no", "0", "never", "no"⟩ (by decide)).1⟩

/-- C4: the spec's assessment scenario — good/rarely/3/no/4/yes/7/often/
sometimes/yes/no/no/no/2/rarely/no scores exactly 85. -/
theorem assessment_scenario_score_85 :
    calculateHealthScore
      ⟨"good", "rarely", "3", "no", "4", "yes", "7", "often", "sometimes", "yes",
       "no", "no", "no", "2", "rarely", "no"⟩ = 85 := by decide

theorem onboarding_any_menstrual_false :
    (ONBOARDING_STEPS.any fun s => s.field == "menstrual_cycle_type") = false := by decide

theorem menstrual_step_not_in_onboarding : MENSTRUAL_CYCLE_STEP ∉ ONBOARDING_STEPS := by
  intro h
  have hf := List.mem_map_of_mem FlowStep.field h
  have hm : ONBOARDING_STEPS.map FlowStep.field =
      ["name", "age", "sex", "height_cm", "weight_kg", "location",
       "medical_history", "chronic_conditions", "allergies", "medications"] := rfl
  rw [hm] at hf
  have hfld : MENSTRUAL_CYCLE_STEP.field = "menstrual_cycle_type" := rfl
  rw [hfld] at hf
  revert hf
  decide

theorem resolveOnboardingSteps_eq (answers : List (String × String)) :
    resolveOnboardingSteps answers =
      if answers.lookup "sex" = some "female"
      then ONBOARDING_STEPS ++ [MENSTRUAL_CYCLE_STEP] else ONBOARDING_STEPS := by
  unfold resolveOnboardingSteps
  simp only [onboarding_any_menstrual_false, Bool.not_false, Bool.and_true, beq_iff_eq]

/-- C7: the resolved onboarding step list carries the extra
menstrual-cycle-type step exactly when the stored sex answer is "female"
(11 steps instead of 10), and no other flow's resolved step list depends
on the accumulated answers. -/
theorem onboarding_conditional_step_resolution :
    ∀ answers : List (String × String),
      (resolveOnboardingSteps answers =
        if answers.lookup "sex" = some "female"
        then ONBOARDING_STEPS ++ [MENSTRUAL_CYCLE_STEP] else ONBOARDING_STEPS) ∧
      ((MENSTRUAL_CYCLE_STEP ∈ resolveOnboardingSteps answers) ↔
        answers.lookup "sex" = some "female") ∧
      (resolveOnboardingSteps answers).length =
        (if answers.lookup "sex" = some "female" then 11 else 10) ∧
      (∀ s : FlowState, s ≠ FlowState.onboarding →
        ∀ env a1 a2, stepsFor env s a1 = stepsFor env s a2) := by
  intro answers
  refine ⟨resolveOnboardingSteps_eq answers, ?_, ?_, ?_⟩
  · rw [resolveOnboardingSteps_eq answers]
    by_cases hs : answers.lookup "sex" = some "female" <;> simp [hs]
    exact menstrual_step_not_in_onboarding
  · rw [resolveOnboardingSteps_eq answers]
    by_cases hs : answers.lookup "sex" = some "female" <;> simp [hs] <;> rfl
  · intro s hs env a1 a2
    cases s <;> first | rfl | exact absurd rfl hs

/-- Witness for C7 at a concrete answer set (sex recorded as "female")
and, for the static part, the diagnosis flow. -/
theorem onboarding_conditional_step_resolution_witness :
    (MENSTRUAL_CYCLE_STEP ∈ resolveOnboardingSteps [("sex", "female")]) ∧
    stepsFor ⟨true, none, none, [], none, true, 0⟩ FlowState.diagnosing [("a", "b")] =
      stepsFor ⟨true, none, none, [], none, true, 0⟩ FlowState.diagnosing [] :=
  ⟨((onboarding_conditional_step_resolution [("sex", "female")]).2.1).mpr (by decide),
   (onboarding_conditional_step_resolution []).2.2.2 FlowState.diagnosing (by decide)
     ⟨true, none, none, [], none, true, 0⟩ [("a", "b")] []⟩

/-- C8: the predicted next period is the last period date plus the cycle
length in days; the armed pre-reminder fires exactly 3 days before the
predicted date; concretely, 2025-04-01 + 28 days = 2025-04-29 with the
reminder at 2025-04-26 (when that instant is not already past). -/
theorem cycle_prediction_and_reminder :
    calculateNextPeriod "2025-04-01" "28" = "2025-04-29" ∧
    (∀ uid nowMs, nowMs ≤ dateMs 2025 4 26 →
      schedulePeriodReminder nowMs uid "2025-04-29" =
        [Sched.periodOneShot uid (dateMs 2025 4 26) "2025-04-29"]) ∧
    (∀ nowMs uid pred y m d, parseIsoDate pred = some (y, m, d) →
      ∀ s ∈ schedulePeriodReminder nowMs uid pred,
        s = Sched.periodOneShot uid (dateMs y m d - 3 * msPerDay) pred) := by
  refine ⟨by decide, ?_, ?_⟩
  · intro uid nowMs hnow
    have he : dateMs 2025 4 29 - 3 * msPerDay = dateMs 2025 4 26 := by decide
    show (if dateMs 2025 4 29 - 3 * msPerDay < nowMs then ([] : List Sched)
          else [Sched.periodOneShot uid (dateMs 2025 4 29 - 3 * msPerDay) "2025-04-29"]) = _
    rw [if_neg (by omega), he]
  · intro nowMs uid pred y m d hp s hs
    unfold schedulePeriodReminder at hs
    rw [hp] at hs
    by_cases hlt : dateMs y m d - 3 * msPerDay < nowMs
    · simp [hlt] at hs
    · simp [hlt] at hs
      exact hs

/-- Witness for C8: with the current time at the epoch, the scenario's
reminder is armed for 2025-04-26. -/
theorem cycle_prediction_and_reminder_witness :
    schedulePeriodReminder 0 "u" "2025-04-29" =
      [Sched.periodOneShot "u" (dateMs 2025 4 26) "2025-04-29"] :=
  cycle_prediction_and_reminder.2.1 "u" 0 (by decide)

/-- No one-shot in this list fires before `nowMs`. -/
def SchedSafe (nowMs : Int) (l : List Sched) : Prop :=
  ∀ s ∈ l, ∀ t, oneShotInstant s = some t → nowMs ≤ t

theorem schedSafe_nil (now : Int) : SchedSafe now [] :=
  fun s hs => absurd hs (List.not_mem_nil s)

theorem schedSafe_period (now : Int) (uid pred : String) :
    SchedSafe now (schedulePeriodReminder now uid pred) := by
  intro s hs t ht
  rcases hp : parseIsoDate pred with _ | ⟨y, m, d⟩
  · simp [schedulePeriodReminder, hp] at hs
  · by_cases hlt : dateMs y m d - 3 * msPerDay < now
    · simp [schedulePeriodReminder, hp, hlt] at hs
    · simp [schedulePeriodReminder, hp, hlt] at hs
      subst hs
      simp [oneShotInstant] at ht
      omega

theorem schedSafe_assessment (now : Int) (uid : String) :
    SchedSafe now (scheduleAssessmentReminder now uid) := by
  intro s hs t ht
  simp [scheduleAssessmentReminder] at hs
  subst hs
  simp [oneShotInstant] at ht
  omega

theorem schedSafe_followUp (now : Int) (uid sev : String) :
    SchedSafe now (scheduleFollowUpReminder now uid sev) := by
  unfold scheduleFollowUpReminder
  split
  · exact schedSafe_nil now
  · intro s hs t ht
    simp at hs
    subst hs
    simp [oneShotInstant, msPerDay] at ht
    omega

theorem schedSafe_medication (now : Int) (uid : String) (md : MedReminder) :
    SchedSafe now (scheduleMedicationReminder uid md) := by
  intro s hs t ht
  simp [scheduleMedicationReminder] at hs
  subst hs
  simp [oneShotInstant] at ht

theorem schedSafe_fitness (now : Int) (uid : String) :
    SchedSafe now (scheduleFitnessReminder uid) := by
  intro s hs t ht
  simp [scheduleFitnessReminder] at hs
  subst hs
  simp [oneShotInstant] at ht

theorem schedSafe_meal (now : Int) (uid : String) :
    SchedSafe now (scheduleMealReminder uid) := by
  intro s hs t ht
  simp [scheduleMealReminder] at hs
  subst hs
  simp [oneShotInstant] at ht

theorem schedSafe_runFlowStep (steps : List FlowStep) (fin : UserState → HandlerResult)
    (st : UserState) (um : String) (now : Int)
    (h : ∀ s', SchedSafe now (fin s').scheduled) :
    SchedSafe now (runFlowStep steps fin st um).scheduled := by
  rcases hget : steps.get? st.step with _ | stp
  · simp only [runFlowStep, hget]
    exact h st
  · rcases hval : stp.validate um with _ | err
    · simp only [runFlowStep, hget, hval]
      rcases hget2 : steps.get? (storeAdvance st stp.field um).step with _ | nxt <;>
        simp only [hget2]
      · exact h _
      · exact schedSafe_nil now
    · simp only [runFlowStep, hget, hval]
      exact schedSafe_nil now

theorem schedSafe_finalizeOnboarding (now : Int) (st' : UserState) :
    SchedSafe now (finalizeOnboarding st').scheduled :=
  schedSafe_nil now

theorem schedSafe_finalizeDiagnosing (env : Env) (uid : String) (st' : UserState) :
    SchedSafe env.nowMs (finalizeDiagnosing env uid st').scheduled := by
  unfold finalizeDiagnosing
  repeat' split
  all_goals first
    | exact schedSafe_nil env.nowMs
    | exact schedSafe_followUp env.nowMs uid _

theorem schedSafe_finalizeAssessing (env : Env) (st' : UserState) :
    SchedSafe env.nowMs (finalizeAssessing env st').scheduled := by
  unfold finalizeAssessing
  repeat' split
  all_goals exact schedSafe_nil env.nowMs

theorem schedSafe_finalizeFitness (env : Env) (uid : String) (st' : UserState) :
    SchedSafe env.nowMs (finalizeFitness env uid st').scheduled := by
  unfold finalizeFitness
  repeat' split
  all_goals first
    | exact schedSafe_nil env.nowMs
    | exact schedSafe_fitness env.nowMs uid

theorem schedSafe_finalizeMeal (env : Env) (uid : String) (st' : UserState) :
    SchedSafe env.nowMs (finalizeMeal env uid st').scheduled := by
  unfold finalizeMeal
  repeat' split
  all_goals first
    | exact schedSafe_nil env.nowMs
    | exact schedSafe_meal env.nowMs uid

theorem schedSafe_finalizeCycle (env : Env) (uid : String) (st' : UserState) :
    SchedSafe env.nowMs (finalizeCycle env uid st').scheduled := by
  unfold finalizeCycle
  repeat' split
  all_goals first
    | exact schedSafe_nil env.nowMs
    | exact schedSafe_period env.nowMs uid _

theorem schedSafe_finalizeMedication (env : Env) (uid : String) (st' : UserState) :
    SchedSafe env.nowMs (finalizeMedication env uid st').scheduled := by
  unfold finalizeMedication
  repeat' split
  all_goals first
    | exact schedSafe_nil env.nowMs
    | exact schedSafe_medication env.nowMs uid _

theorem cancelCommand_sched_nil (st : UserState) : (cancelCommand st).scheduled = [] := by
  unfold cancelCommand
  split <;> rfl

theorem startCommand_sched_nil (env : Env) : (startCommand env).scheduled = [] := by
  unfold startCommand
  split <;> rfl

theorem launchGate_sched_nil (env : Env) (r : HandlerResult) (h : r.scheduled = []) :
    (launchGate env r).scheduled = [] := by
  unfold launchGate
  split <;> simp [h]

theorem cycleCommand_sched_nil (env : Env) : (cycleCommand env).scheduled = [] := by
  unfold cycleCommand
  repeat' split
  all_goals rfl

theorem medicationCommand_sched_nil (env : Env) : (medicationCommand env).scheduled = [] := by
  unfold medicationCommand
  split <;> rfl

theorem askCommand_sched_nil (env : Env) (body : String) :
    (askCommand env body).scheduled = [] := by
  unfold askCommand
  repeat' split
  all_goals rfl

theorem routeCommand_sched_nil (env : Env) (st : UserState) (um body : String)
    (r : HandlerResult) (h : routeCommand env st um body = some r) : r.scheduled = [] := by
  unfold routeCommand at h
  repeat' split at h
  all_goals first
    | (injection h with h2; subst h2)
    | exact absurd h (by simp)
  all_goals first
    | rfl
    | exact cancelCommand_sched_nil st
    | exact startCommand_sched_nil env
    | exact launchGate_sched_nil env _ rfl
    | exact launchGate_sched_nil env _ (cycleCommand_sched_nil env)
    | exact launchGate_sched_nil env _ (medicationCommand_sched_nil env)
    | exact launchGate_sched_nil env _ (askCommand_sched_nil env body)

theorem dispatchState_schedSafe (env : Env) (uid : String) (st : UserState) (um : String) :
    SchedSafe env.nowMs (dispatchState env uid st um).scheduled := by
  unfold dispatchState
  repeat' split
  all_goals first
    | exact schedSafe_nil env.nowMs
    | exact schedSafe_assessment env.nowMs uid
    | exact schedSafe_runFlowStep _ _ _ _ _ (fun s' => schedSafe_finalizeOnboarding env.nowMs s')
    | exact schedSafe_runFlowStep _ _ _ _ _ (fun s' => schedSafe_finalizeDiagnosing env uid s')
    | exact schedSafe_runFlowStep _ _ _ _ _ (fun s' => schedSafe_finalizeAssessing env s')
    | exact schedSafe_runFlowStep _ _ _ _ _ (fun s' => schedSafe_finalizeFitness env uid s')
    | exact schedSafe_runFlowStep _ _ _ _ _ (fun s' => schedSafe_finalizeMeal env uid s')
    | exact schedSafe_runFlowStep _ _ _ _ _ (fun s' => schedSafe_finalizeCycle env uid s')
    | exact schedSafe_runFlowStep _ _ _ _ _ (fun s' => schedSafe_finalizeMedication env uid s')

theorem handlerCore_schedSafe (env : Env) (uid : String) (st : UserState) (um body : String) :
    SchedSafe env.nowMs (handlerCore env uid st um body).scheduled := by
  unfold handlerCore
  rcases hr : routeCommand env st um body with _ | r <;> simp only [hr]
  · exact dispatchState_schedSafe env uid st um
  · rw [routeCommand_sched_nil env st um body r hr]
    exact schedSafe_nil env.nowMs

theorem handleMessage_schedSafe (env : Env) (uid : String) (st : UserState) (body : String) :
    SchedSafe env.nowMs (handleMessage env uid st body).scheduled :=
  handlerCore_schedSafe env uid st (normalizeMsg body) body

/-- C9: a one-shot whose firing instant is already past is never armed —
the period pre-reminder skips arming when its instant is before the
current time, and every one-shot job the handler ever arms has a firing
instant at or after the current time. -/
theorem past_oneshots_never_armed :
    (∀ nowMs uid pred y m d, parseIsoDate pred = some (y, m, d) →
      dateMs y m d - 3 * msPerDay < nowMs →
      schedulePeriodReminder nowMs uid pred = []) ∧
    (∀ env uid st body, SchedSafe env.nowMs (handleMessage env uid st body).scheduled) := by
  refine ⟨?_, handleMessage_schedSafe⟩
  intro nowMs uid pred y m d hp hlt
  unfold schedulePeriodReminder
  rw [hp]
  simp [hlt]

theorem routeCommand_eq_none (env : Env) (st : UserState) (um body : String)
    (h : isGlobalCommand um = false) : routeCommand env st um body = none := by
  unfold isGlobalCommand at h
  simp only [Bool.or_eq_false_iff, beq_eq_false_iff_ne, ne_eq] at h
  obtain ⟨⟨⟨⟨⟨⟨⟨⟨⟨h1, h2⟩, h3⟩, h4⟩, h5⟩, h6⟩, h7⟩, h8⟩, h9⟩, h10⟩ := h
  simp [routeCommand, h1, h2, h3, h4, h5, h6, h7, h8, h9, h10]

theorem handlerCore_flow (env : Env) (uid : String) (st : UserState) (um body : String)
    (h : isGlobalCommand um = false) :
    handlerCore env uid st um body = dispatchState env uid st um := by
  unfold handlerCore
  rw [routeCommand_eq_none env st um body h]

theorem dispatchState_flow (env : Env) (uid : String) (st : UserState) (um : String)
    (steps : List FlowStep) (hsteps : stepsFor env st.state st.answers = some steps) :
    dispatchState env uid st um =
      runFlowStep steps (finalizeFor env uid st.state) st um := by
  cases hst : st.state
  all_goals rw [hst] at hsteps
  all_goals simp only [stepsFor, Option.some.injEq] at hsteps
  any_goals exact Option.noConfusion hsteps
  all_goals subst hsteps
  all_goals simp only [dispatchState, finalizeFor, hst]

theorem lookup_setField (answers : List (String × String)) (k v : String) :
    (setField answers k v).lookup k = some v := by
  induction answers with
  | nil => simp [setField]
  | cons hd t ih =>
    rcases hd with ⟨k0, v0⟩
    unfold setField
    by_cases hk : k0 = k
    · simp [hk]
    · have hne : (k == k0) = false := by
        simp only [beq_eq_false_iff_ne, ne_eq]
        exact fun he => hk he.symm
      simp [hk, List.lookup, hne, ih]

/-- C2: when the active step's validator rejects the (normalized) inbound
text of a non-command message, the handler replies with exactly the
validation error text, performs no `userStates.set`, leaves the Session
unchanged, and resubmitting the same input any number of times leaves it
unchanged too. -/
theorem validation_failure_no_mutation :
    ∀ (env : Env) (uid : String) (st : UserState) (body : String)
      (steps : List FlowStep) (stp : FlowStep) (err : String),
      isGlobalCommand (normalizeMsg body) = false →
      stepsFor env st.state st.answers = some steps →
      steps.get? st.step = some stp →
      stp.validate (normalizeMsg body) = some err →
      handleMessage env uid st body = ⟨[], [err], []⟩ ∧
      finalStateOf st (handleMessage env uid st body) = st ∧
      ∀ n, (fun s => finalStateOf s (handleMessage env uid s body))^[n] st = st := by
  intro env uid st body steps stp err hcmd hsteps hget hval
  have hcore : handleMessage env uid st body = ⟨[], [err], []⟩ := by
    unfold handleMessage
    rw [handlerCore_flow env uid st _ body hcmd,
        dispatchState_flow env uid st _ steps hsteps]
    simp only [runFlowStep, hget, hval]
  refine ⟨hcore, by rw [hcore]; rfl, fun n => Function.iterate_fixed (by rw [hcore]; rfl) n⟩

/-- Witness for C2: an invalid first assessment answer is rejected with
the step's error text and the Session is untouched. -/
theorem validation_failure_no_mutation_witness :
    handleMessage ⟨true, none, none, [], none, true, 0⟩ "u"
        ⟨.assessing, [], [], 0⟩ "MAYBE" =
      ⟨[], ["Please provide excellent, good, fair, or poor."], []⟩ :=
  (validation_failure_no_mutation ⟨true, none, none, [], none, true, 0⟩ "u"
    ⟨.assessing, [], [], 0⟩ "MAYBE" ASSESSMENT_STEPS _ _
    (by decide) rfl rfl rfl).1

/-- The seven states in which the handler collects flow steps. -/
def isFlowState : FlowState → Bool
  | .onboarding | .diagnosing | .assessing | .fitness | .meal
  | .cycle_tracking | .medication_setup => true
  | _ => false

/-- The Session each flow's finalization leaves behind: onboarding hands
over to the assessment choice, every other flow resets to Idle. -/
def resetStateFor : FlowState → UserState
  | .onboarding => ⟨.awaiting_assessment_choice, [], [], 0⟩
  | _ => initState

theorem stepsFor_isFlowState (env : Env) (s : FlowState) (a : List (String × String))
    (steps : List FlowStep) (h : stepsFor env s a = some steps) : isFlowState s = true := by
  cases s <;> first | rfl | exact Option.noConfusion h

theorem finalizeFor_writes (env : Env) (uid : String) (s : FlowState) (st'' : UserState)
    (hflow : isFlowState s = true) :
    (finalizeFor env uid s st'').writes = [resetStateFor s] := by
  cases s
  case onboarding => rfl
  case diagnosing =>
    show (finalizeDiagnosing env uid st'').writes = _
    unfold finalizeDiagnosing
    repeat' split
    all_goals rfl
  case assessing =>
    show (finalizeAssessing env st'').writes = _
    unfold finalizeAssessing
    repeat' split
    all_goals rfl
  case fitness =>
    show (finalizeFitness env uid st'').writes = _
    unfold finalizeFitness
    repeat' split
    all_goals rfl
  case meal =>
    show (finalizeMeal env uid st'').writes = _
    unfold finalizeMeal
    repeat' split
    all_goals rfl
  case cycle_tracking =>
    show (finalizeCycle env uid st'').writes = _
    unfold finalizeCycle
    repeat' split
    all_goals rfl
  case medication_setup =>
    show (finalizeMedication env uid st'').writes = _
    unfold finalizeMedication
    repeat' split
    all_goals rfl
  all_goals exact absurd hflow (by decide)

theorem finalizeFor_replies_fail (env : Env) (uid : String) (s : FlowState) (st'' : UserState)
    (hflow : isFlowState s = true) (hfail : finalizationFails s env = true) :
    (finalizeFor env uid s st'').replies = [apologyFor s env] := by
  cases s
  case diagnosing =>
    show (finalizeDiagnosing env uid st'').replies = _
    rcases hg : env.genResult with _ | a
    · simp [finalizeDiagnosing, apologyFor, hg]
    · cases hsv : env.saveOk
      · simp [finalizeDiagnosing, apologyFor, hg, hsv]
      · simp [finalizationFails, hg, hsv] at hfail
  case assessing =>
    show (finalizeAssessing env st'').replies = _
    rcases hg : env.genResult with _ | a
    · simp [finalizeAssessing, apologyFor, hg]
    · cases hsv : env.saveOk
      · simp [finalizeAssessing, apologyFor, hg, hsv]
      · simp [finalizationFails, hg, hsv] at hfail
  case fitness =>
    show (finalizeFitness env uid st'').replies = _
    rcases hg : env.genResult with _ | a
    · simp [finalizeFitness, apologyFor, hg]
    · cases hsv : env.saveOk
      · simp [finalizeFitness, apologyFor, hg, hsv]
      · simp [finalizationFails, hg, hsv] at hfail
  case meal =>
    show (finalizeMeal env uid st'').replies = _
    rcases hg : env.genResult with _ | a
    · simp [finalizeMeal, apologyFor, hg]
    · cases hsv : env.saveOk
      · simp [finalizeMeal, apologyFor, hg, hsv]
      · simp [finalizationFails, hg, hsv] at hfail
  case cycle_tracking =>
    show (finalizeCycle env uid st'').replies = _
    cases hsv : env.saveOk
    · simp [finalizeCycle, apologyFor, hsv]
    · simp [finalizationFails, hsv] at hfail
  case medication_setup =>
    show (finalizeMedication env uid st'').replies = _
    cases hsv : env.saveOk
    · simp [finalizeMedication, apologyFor, hsv]
    · simp [finalizationFails, hsv] at hfail
  case onboarding => simp [finalizationFails] at hfail
  all_goals exact absurd hflow (by decide)

theorem runFlowStep_finalizes (steps : List FlowStep) (fin : UserState → HandlerResult)
    (st : UserState) (um : String) (hw : ∀ s', (fin s').writes ≠ [])
    (htrig : steps.length ≤ st.step ∨
      ∃ stp, steps.get? st.step = some stp ∧ stp.validate um = none ∧
        st.step + 1 = steps.length) :
    ∃ st'', (runFlowStep steps fin st um).replies = (fin st'').replies ∧
      (runFlowStep steps fin st um).writes.getLast? = (fin st'').writes.getLast? := by
  rcases htrig with hlen | ⟨stp, hget, hval, hlen⟩
  · have hnone : steps.get? st.step = none := List.get?_eq_none.mpr hlen
    exact ⟨st, by simp only [runFlowStep, hnone], by simp only [runFlowStep, hnone]⟩
  · have hnone : steps.get? (storeAdvance st stp.field um).step = none := by
      apply List.get?_eq_none.mpr
      simp only [storeAdvance]
      omega
    refine ⟨storeAdvance st stp.field um, ?_, ?_⟩ <;>
      simp only [runFlowStep, hget, hval, hnone]
    rcases hww : (fin (storeAdvance st stp.field um)).writes with _ | ⟨w, ws⟩
    · exact absurd hww (hw _)
    · simp

/-- C1 (amended): for a non-command message that triggers finalization
(the flow is exhausted, or the last step's answer is accepted), every
flow's finalization leaves the Session with empty answers and step 0 on
every outcome — Idle for all flows except onboarding, which hands over to
AwaitingAssessmentChoice — and every finalization failure (generation
returned no result, or the save reported failure) replies with that
flow's apology. -/
theorem finalization_resets_session :
    ∀ (env : Env) (uid : String) (st : UserState) (body : String) (steps : List FlowStep),
      isGlobalCommand (normalizeMsg body) = false →
      stepsFor env st.state st.answers = some steps →
      (steps.length ≤ st.step ∨
        ∃ stp, steps.get? st.step = some stp ∧ stp.validate (normalizeMsg body) = none ∧
          st.step + 1 = steps.length) →
      finalStateOf st (handleMessage env uid st body) = resetStateFor st.state ∧
      (resetStateFor st.state).answers = [] ∧ (resetStateFor st.state).step = 0 ∧
      (st.state ≠ FlowState.onboarding → resetStateFor st.state = initState) ∧
      (finalizationFails st.state env = true →
        (handleMessage env uid st body).replies = [apologyFor st.state env]) := by
  intro env uid st body steps hcmd hsteps htrig
  have hflow : isFlowState st.state = true := stepsFor_isFlowState env _ _ steps hsteps
  have hdisp : handleMessage env uid st body =
      runFlowStep steps (finalizeFor env uid st.state) st (normalizeMsg body) := by
    unfold handleMessage
    rw [handlerCore_flow env uid st _ body hcmd,
        dispatchState_flow env uid st _ steps hsteps]
  obtain ⟨st'', hrep, hlast⟩ :=
    runFlowStep_finalizes steps (finalizeFor env uid st.state) st (normalizeMsg body)
      (fun s' => by rw [finalizeFor_writes env uid st.state s' hflow]; simp) htrig
  refine ⟨?_, ?_, ?_, ?_, ?_⟩
  · rw [hdisp]
    unfold finalStateOf
    rw [hlast, finalizeFor_writes env uid st.state st'' hflow]
    rfl
  · cases hst : st.state <;> rfl
  · cases hst : st.state <;> rfl
  · intro hne
    cases hst : st.state <;> first | rfl | exact absurd hst hne
  · intro hfail
    rw [hdisp, hrep, finalizeFor_replies_fail env uid st.state st'' hflow hfail]

/-- Counterexample to C1 as stated: a male user answering the last
onboarding step triggers finalization (the completion reply is sent), yet
the Session is not reset to Idle — it is left in
`awaiting_assessment_choice`. -/
theorem finalization_resets_session_counterexample :
    (handleMessage ⟨true, none, none, [], some "x", true, 0⟩ "u"
        ⟨.onboarding,
         [("name", "jane"), ("age", "29"), ("sex", "male"), ("height_cm", "165"),
          ("weight_kg", "60"), ("location", "boston"), ("medical_history", "none"),
          ("chronic_conditions", "none"), ("allergies", "none")], [], 9⟩
        "none").replies = [onboardingCompleteReply] ∧
    (finalStateOf
        ⟨.onboarding,
         [("name", "jane"), ("age", "29"), ("sex", "male"), ("height_cm", "165"),
          ("weight_kg", "60"), ("location", "boston"), ("medical_history", "none"),
          ("chronic_conditions", "none"), ("allergies", "none")], [], 9⟩
        (handleMessage ⟨true, none, none, [], some "x", true, 0⟩ "u"
          ⟨.onboarding,
           [("name", "jane"), ("age", "29"), ("sex", "male"), ("height_cm", "165"),
            ("weight_kg", "60"), ("location", "boston"), ("medical_history", "none"),
            ("chronic_conditions", "none"), ("allergies", "none")], [], 9⟩
          "none")).state ≠ FlowState.initial := by
  refine ⟨by decide, by decide⟩

/-- Witness for the amended C1: a diagnosis finalization whose
text-generation returns no result apologizes with the diagnosis apology
and resets the Session to Idle with empty answers. -/
theorem finalization_resets_session_witness :
    finalStateOf ⟨.diagnosing,
        [("symptoms", "fever"), ("severity", "mild"), ("duration", "2 days")], [], 3⟩
      (handleMessage ⟨true, none, none, [], none, true, 0⟩ "u"
        ⟨.diagnosing,
         [("symptoms", "fever"), ("severity", "mild"), ("duration", "2 days")], [], 3⟩
        "hello") = initState ∧
    (handleMessage ⟨true, none, none, [], none, true, 0⟩ "u"
      ⟨.diagnosing,
       [("symptoms", "fever"), ("severity", "mild"), ("duration", "2 days")], [], 3⟩
      "hello").replies = [diagGenFailReply] :=
  ⟨(finalization_resets_session ⟨true, none, none, [], none, true, 0⟩ "u"
      ⟨.diagnosing, [("symptoms", "fever"), ("severity", "mild"), ("duration", "2 days")],
       [], 3⟩ "hello" DIAGNOSIS_STEPS (by decide) rfl (Or.inl (by decide))).1,
   (finalization_resets_session ⟨true, none, none, [], none, true, 0⟩ "u"
      ⟨.diagnosing, [("symptoms", "fever"), ("severity", "mild"), ("duration", "2 days")],
       [], 3⟩ "hello" DIAGNOSIS_STEPS (by decide) rfl (Or.inl (by decide))).2.2.2.2 rfl⟩

/-- C6: when the active step's validator accepts the (normalized) inbound
text of a non-command message, the very next `userStates.set` stores that
text raw under the step's field and sets the step index to i + 1. -/
theorem accepted_input_stores_and_advances :
    ∀ (env : Env) (uid : String) (st : UserState) (body : String)
      (steps : List FlowStep) (stp : FlowStep),
      isGlobalCommand (normalizeMsg body) = false →
      stepsFor env st.state st.answers = some steps →
      steps.get? st.step = some stp →
      stp.validate (normalizeMsg body) = none →
      (handleMessage env uid st body).writes.head? =
        some { st with answers := setField st.answers stp.field (normalizeMsg body),
                       step := st.step + 1 } ∧
      (setField st.answers stp.field (normalizeMsg body)).lookup stp.field =
        some (normalizeMsg body) := by
  intro env uid st body steps stp hcmd hsteps hget hval
  refine ⟨?_, lookup_setField st.answers stp.field (normalizeMsg body)⟩
  unfold handleMessage
  rw [handlerCore_flow env uid st _ body hcmd,
      dispatchState_flow env uid st _ steps hsteps]
  rcases hget2 : steps.get? (storeAdvance st stp.field (normalizeMsg body)).step with _ | nxt <;>
    simp only [runFlowStep, hget, hval, hget2] <;> rfl

/-- Witness for C6: the first accepted assessment answer is stored under
`overall_health` and the step index becomes 1. -/
theorem accepted_input_stores_and_advances_witness :
    (handleMessage ⟨true, none, none, [], none, true, 0⟩ "u"
        ⟨.assessing, [], [], 0⟩ "  Good ").writes.head? =
      some ⟨.assessing, [("overall_health", "good")], [], 1⟩ :=
  (accepted_input_stores_and_advances ⟨true, none, none, [], none, true, 0⟩ "u"
    ⟨.assessing, [], [], 0⟩ "  Good " ASSESSMENT_STEPS _
    (by decide) rfl rfl rfl).1

/-- The Session invariant the handler maintains: in a flow state the step
index never exceeds the resolved flow's length, and outside flow states
the step index is 0. -/
def SessionInv (st : UserState) : Prop :=
  (∀ env steps, stepsFor env st.state st.answers = some steps → st.step ≤ steps.length) ∧
  (isFlowState st.state = false → st.step = 0)

/-- Between two successive Sessions: the step index did not decrease, or
the Session was reset to step 0 with empty answers (a flow boundary). -/
def resetOrGrew (st st' : UserState) : Prop :=
  st.step ≤ st'.step ∨ (st'.step = 0 ∧ st'.answers = [])

theorem sessionInv_of_reset (w : UserState) (h0 : w.step = 0) : SessionInv w :=
  ⟨fun _ _ _ => h0 ▸ Nat.zero_le _, fun _ => h0⟩

theorem resetOrGrew_self (st : UserState) : resetOrGrew st st := Or.inl le_rfl

theorem resolveOnboardingSteps_length (a : List (String × String)) :
    (resolveOnboardingSteps a).length = 10 ∨ (resolveOnboardingSteps a).length = 11 := by
  rw [resolveOnboardingSteps_eq a]
  split
  · right; rfl
  · left; rfl

theorem stepsFor_length_mono (s : FlowState) (env env' : Env)
    (a a' : List (String × String)) (steps steps' : List FlowStep)
    (h : stepsFor env s a = some steps) (h' : stepsFor env' s a' = some steps')
    (n : Nat) (hn : n < steps.length) : n ≤ steps'.length := by
  cases s
  all_goals simp only [stepsFor, Option.some.injEq] at h h'
  any_goals exact Option.noConfusion h
  case onboarding =>
    subst h; subst h'
    rcases resolveOnboardingSteps_length a with hl | hl <;>
      rcases resolveOnboardingSteps_length a' with hl' | hl' <;> omega
  case diagnosing => subst h; subst h'; omega
  case assessing => subst h; subst h'; omega
  case fitness => subst h; subst h'; omega
  case meal => subst h; subst h'; omega
  case medication_setup => subst h; subst h'; omega
  case cycle_tracking =>
    subst h; subst h'
    have hl : (CYCLE_STEPS env.nowMs).length = 2 := rfl
    have hl' : (CYCLE_STEPS env'.nowMs).length = 2 := rfl
    omega

theorem runFlowStep_preserves (env : Env) (uid : String) (st : UserState) (um : String)
    (steps : List FlowStep) (hst : stepsFor env st.state st.answers = some steps)
    (hinv : SessionInv st) :
    SessionInv (finalStateOf st (runFlowStep steps (finalizeFor env uid st.state) st um)) ∧
    resetOrGrew st (finalStateOf st (runFlowStep steps (finalizeFor env uid st.state) st um)) := by
  have hflow := stepsFor_isFlowState env _ _ steps hst
  have h0 : (resetStateFor st.state).step = 0 := by cases st.state <;> rfl
  have ha : (resetStateFor st.state).answers = [] := by cases st.state <;> rfl
  rcases hget : steps.get? st.step with _ | stp
  · simp only [runFlowStep, hget]
    have hfin : finalStateOf st (finalizeFor env uid st.state st) = resetStateFor st.state := by
      unfold finalStateOf
      rw [finalizeFor_writes env uid st.state st hflow]
      rfl
    rw [hfin]
    exact ⟨sessionInv_of_reset _ h0, Or.inr ⟨h0, ha⟩⟩
  · rcases hval : stp.validate um with _ | err
    · rcases hget2 : steps.get? (storeAdvance st stp.field um).step with _ | nxt
      · simp only [runFlowStep, hget, hval, hget2]
        rw [finalizeFor_writes env uid st.state (storeAdvance st stp.field um) hflow]
        have hfin : finalStateOf st
            (⟨storeAdvance st stp.field um :: [resetStateFor st.state],
              (finalizeFor env uid st.state (storeAdvance st stp.field um)).replies,
              (finalizeFor env uid st.state (storeAdvance st stp.field um)).scheduled⟩ :
              HandlerResult) = resetStateFor st.state := rfl
        rw [hfin]
        exact ⟨sessionInv_of_reset _ h0, Or.inr ⟨h0, ha⟩⟩
      · simp only [runFlowStep, hget, hval, hget2]
        obtain ⟨hlt, -⟩ := List.get?_eq_some.mp hget2
        have hfin : finalStateOf st
            (⟨[storeAdvance st stp.field um], [nxt.prompt], []⟩ : HandlerResult) =
            storeAdvance st stp.field um := rfl
        rw [hfin]
        refine ⟨⟨?_, ?_⟩, Or.inl (Nat.le_succ st.step)⟩
        · intro env' steps' h'
          exact stepsFor_length_mono st.state env env' st.answers _ steps steps' hst h' _ hlt
        · intro hc
          rw [show (storeAdvance st stp.field um).state = st.state from rfl, hflow] at hc
          exact Bool.noConfusion hc
    · simp only [runFlowStep, hget, hval]
      exact ⟨hinv, resetOrGrew_self st⟩

/-- Every Session a command branch writes has step 0 and empty answers. -/
def ResetWrites (r : HandlerResult) : Prop :=
  ∀ w ∈ r.writes, w.step = 0 ∧ w.answers = []

theorem cancelCommand_resetWrites (st : UserState) : ResetWrites (cancelCommand st) := by
  intro w hw
  unfold cancelCommand at hw
  split at hw
  · exact absurd hw (List.not_mem_nil w)
  · simp at hw
    subst hw
    exact ⟨rfl, rfl⟩

theorem startCommand_resetWrites (env : Env) : ResetWrites (startCommand env) := by
  intro w hw
  unfold startCommand at hw
  split at hw <;> simp at hw <;> subst hw <;> exact ⟨rfl, rfl⟩

theorem launchGate_resetWrites (env : Env) (r : HandlerResult) (h : ResetWrites r) :
    ResetWrites (launchGate env r) := by
  intro w hw
  unfold launchGate at hw
  split at hw
  · exact absurd hw (List.not_mem_nil w)
  · exact h w hw

theorem cycleCommand_resetWrites (env : Env) : ResetWrites (cycleCommand env) := by
  intro w hw
  unfold cycleCommand at hw
  repeat' split at hw
  all_goals first
    | exact absurd hw (List.not_mem_nil w)
    | (simp at hw; subst hw; exact ⟨rfl, rfl⟩)

theorem medicationCommand_resetWrites (env : Env) : ResetWrites (medicationCommand env) := by
  intro w hw
  unfold medicationCommand at hw
  split at hw <;> simp at hw <;> subst hw <;> exact ⟨rfl, rfl⟩

theorem askCommand_resetWrites (env : Env) (body : String) :
    ResetWrites (askCommand env body) := by
  intro w hw
  unfold askCommand at hw
  repeat' split at hw
  all_goals exact absurd hw (List.not_mem_nil w)

theorem routeCommand_resetWrites (env : Env) (st : UserState) (um body : String)
    (r : HandlerResult) (h : routeCommand env st um body = some r) : ResetWrites r := by
  unfold routeCommand at h
  repeat' split at h
  all_goals first
    | (injection h with h2; subst h2)
    | exact absurd h (by simp)
  all_goals first
    | exact fun w hw => absurd hw (List.not_mem_nil w)
    | exact cancelCommand_resetWrites st
    | exact startCommand_resetWrites env
    | exact launchGate_resetWrites env _ (fun w hw => by
        simp at hw; subst hw; exact ⟨rfl, rfl⟩)
    | exact launchGate_resetWrites env _ (cycleCommand_resetWrites env)
    | exact launchGate_resetWrites env _ (medicationCommand_resetWrites env)
    | exact launchGate_resetWrites env _ (askCommand_resetWrites env body)

theorem getLast?_of_resetWrites (st : UserState) (r : HandlerResult) (h : ResetWrites r) :
    finalStateOf st r = st ∨
      ((finalStateOf st r).step = 0 ∧ (finalStateOf st r).answers = []) := by
  rcases hw : r.writes with _ | ⟨w, ws⟩
  · left
    unfold finalStateOf
    rw [hw]
    rfl
  · right
    have hne : r.writes ≠ [] := by rw [hw]; exact List.cons_ne_nil w ws
    have hsome := List.getLast?_isSome.mpr hne
    rcases hlast : r.writes.getLast? with _ | w'
    · rw [hlast] at hsome; exact Bool.noConfusion hsome
    · have hmem : w' ∈ r.writes := by
        have hx : w' ∈ r.writes.getLast? := by rw [hlast]; rfl
        obtain ⟨hne', heq⟩ := List.mem_getLast?_eq_getLast hx
        rw [heq]
        exact List.getLast_mem hne'
      have := h w' hmem
      unfold finalStateOf
      rw [hlast]
      exact this

theorem sessionInv_medSetup1 (a : List (String × String)) (rm : List MedReminder) :
    SessionInv ⟨.medication_setup, a, rm, 1⟩ := by
  constructor
  · intro env' steps' h'
    simp only [stepsFor, Option.some.injEq] at h'
    subst h'
    show (1 : Nat) ≤ MEDICATION_STEPS.length
    decide
  · intro hc
    exact Bool.noConfusion hc

/-- One message preserves the Session invariant, and the resulting
Session either kept or grew the step index or is a reset. -/
theorem handleMessage_preserves (env : Env) (uid : String) (body : String) (st : UserState)
    (h : SessionInv st) :
    SessionInv (finalStateOf st (handleMessage env uid st body)) ∧
    resetOrGrew st (finalStateOf st (handleMessage env uid st body)) := by
  unfold handleMessage handlerCore
  rcases hr : routeCommand env st (normalizeMsg body) body with _ | r <;> simp only [hr]
  · rcases hsf : stepsFor env st.state st.answers with _ | steps
    · cases hst : st.state
      all_goals rw [hst] at hsf
      any_goals exact Option.noConfusion hsf
      case initial =>
        have hd : dispatchState env uid st (normalizeMsg body) =
            ⟨[], [fallbackReply], []⟩ := by simp only [dispatchState, hst]
        rw [hd]
        exact ⟨h, resetOrGrew_self st⟩
      case awaiting_tnc_response =>
        have hd : dispatchState env uid st (normalizeMsg body) =
            (if normalizeMsg body = "accept" then
              ⟨[⟨.onboarding, [], [], 0⟩], [promptAt ONBOARDING_STEPS 0], []⟩
             else if normalizeMsg body = "deny" then ⟨[initState], [tncDenyReply], []⟩
             else ⟨[], [tncRepromptReply], []⟩ : HandlerResult) := by
          simp only [dispatchState, hst]
        rw [hd]
        repeat' split
        all_goals first
          | exact ⟨h, resetOrGrew_self st⟩
          | exact ⟨sessionInv_of_reset _ rfl, Or.inr ⟨rfl, rfl⟩⟩
      case awaiting_assessment_choice =>
        have hd : dispatchState env uid st (normalizeMsg body) =
            (if normalizeMsg body = "now" then
              ⟨[⟨.assessing, [], [], 0⟩], [promptAt ASSESSMENT_STEPS 0], []⟩
             else if normalizeMsg body = "later" then
              ⟨[initState], [assessLaterReply], scheduleAssessmentReminder env.nowMs uid⟩
             else if normalizeMsg body = "never" then ⟨[initState], [assessNeverReply], []⟩
             else ⟨[], [assessChoiceRepromptReply], []⟩ : HandlerResult) := by
          simp only [dispatchState, hst]
        rw [hd]
        repeat' split
        all_goals first
          | exact ⟨h, resetOrGrew_self st⟩
          | exact ⟨sessionInv_of_reset _ rfl, Or.inr ⟨rfl, rfl⟩⟩
      case cycle_update_choice =>
        have hd : dispatchState env uid st (normalizeMsg body) =
            (if normalizeMsg body = "yes" then
              ⟨[⟨.cycle_tracking, [], [], 0⟩], [promptAt (CYCLE_STEPS env.nowMs) 0], []⟩
             else if normalizeMsg body = "no" then ⟨[initState], [cycleKeepReply], []⟩
             else ⟨[], [cycleChoiceRepromptReply], []⟩ : HandlerResult) := by
          simp only [dispatchState, hst]
        rw [hd]
        repeat' split
        all_goals first
          | exact ⟨h, resetOrGrew_self st⟩
          | exact ⟨sessionInv_of_reset _ rfl, Or.inr ⟨rfl, rfl⟩⟩
      case medication_choice =>
        have hstep0 : st.step = 0 := h.2 (by rw [hst]; rfl)
        have hd : dispatchState env uid st (normalizeMsg body) =
            (if normalizeMsg body = "add" then
              ⟨[⟨.medication_setup, [], [], 0⟩], [promptAt MEDICATION_STEPS 0], []⟩
             else if normalizeMsg body = "update" then
              ⟨[⟨.medication_select_update, st.answers, st.existingReminders, 0⟩],
                [medSelectListReply st.existingReminders], []⟩
             else ⟨[], [medChoiceRepromptReply], []⟩ : HandlerResult) := by
          simp only [dispatchState, hst]
        rw [hd]
        repeat' split
        all_goals first
          | exact ⟨h, resetOrGrew_self st⟩
          | exact ⟨sessionInv_of_reset _ rfl, Or.inr ⟨rfl, rfl⟩⟩
          | exact ⟨sessionInv_of_reset _ rfl, Or.inl (by rw [hstep0]; exact Nat.zero_le _)⟩
      case medication_select_update =>
        have hstep0 : st.step = 0 := h.2 (by rw [hst]; rfl)
        have hd : dispatchState env uid st (normalizeMsg body) =
            (match jsParseInt (normalizeMsg body) with
             | none => ⟨[], [medSelectInvalidReply], []⟩
             | some k =>
               if k - 1 < 0 ∨ k - 1 ≥ (st.existingReminders.length : Int) then
                 ⟨[], [medSelectInvalidReply], []⟩
               else
                 ⟨[⟨.medication_setup,
                    [("medication_name",
                      (st.existingReminders.getD (k - 1).toNat
                        ⟨"", "", "", ""⟩).medication_name)],
                    [], 1⟩],
                   [promptAt MEDICATION_STEPS 1], []⟩ : HandlerResult) := by
          simp only [dispatchState, hst]
        rw [hd]
        repeat' split
        all_goals try exact ⟨h, resetOrGrew_self st⟩
        exact ⟨sessionInv_medSetup1 _ _, Or.inl (by rw [hstep0]; exact Nat.zero_le _)⟩
    · rw [dispatchState_flow env uid st (normalizeMsg body) steps hsf]
      exact runFlowStep_preserves env uid st (normalizeMsg body) steps hsf h
  · rcases getLast?_of_resetWrites st r (routeCommand_resetWrites env st _ body r hr) with
      heq | ⟨h0, ha⟩
    · rw [heq]
      exact ⟨h, resetOrGrew_self st⟩
    · exact ⟨sessionInv_of_reset _ h0, Or.inr ⟨h0, ha⟩⟩

/-- The Session history: the state before each message and after the
last, starting from a given Session. -/
def traceFrom (st : UserState) : List (Env × String × String) → List UserState
  | [] => [st]
  | (env, uid, body) :: es =>
    st :: traceFrom (finalStateOf st (handleMessage env uid st body)) es

/-- The Session history of a fresh user across a sequence of inbound
messages (each with its collaborator responses and raw body). -/
def sessionTrace (evs : List (Env × String × String)) : List UserState :=
  traceFrom initState evs

theorem traceFrom_head (st : UserState) (evs : List (Env × String × String)) :
    (traceFrom st evs).head? = some st := by
  cases evs with
  | nil => rfl
  | cons e es => rcases e with ⟨env, uid, body⟩; rfl

theorem traceFrom_good (evs : List (Env × String × String)) :
    ∀ st : UserState, SessionInv st →
      (∀ x ∈ traceFrom st evs, SessionInv x) ∧
      List.Chain' resetOrGrew (traceFrom st evs) := by
  induction evs with
  | nil =>
    intro st h
    refine ⟨?_, List.chain'_singleton st⟩
    intro x hx
    simp [traceFrom] at hx
    subst hx
    exact h
  | cons e es ih =>
    rcases e with ⟨env, uid, body⟩
    intro st h
    have hstep := handleMessage_preserves env uid body st h
    obtain ⟨ihmem, ihchain⟩ := ih _ hstep.1
    constructor
    · intro x hx
      rcases List.mem_cons.mp hx with hx | hx
      · subst hx; exact h
      · exact ihmem x hx
    · refine List.chain'_cons'.mpr ⟨?_, ihchain⟩
      intro b hb
      rw [traceFrom_head] at hb
      simp at hb
      subst hb
      exact hstep.2

/-- C5: starting from a fresh Session, across any sequence of inbound
messages every reached Session keeps its step index within
[0, length(active flow steps)], and between successive Sessions the step
index never decreases except by an explicit reset to step 0 with empty
answers. -/
theorem stepIndex_bounded_and_monotone :
    ∀ evs : List (Env × String × String),
      (∀ st ∈ sessionTrace evs, ∀ env steps,
        stepsFor env st.state st.answers = some steps → st.step ≤ steps.length) ∧
      List.Chain' resetOrGrew (sessionTrace evs) := by
  intro evs
  obtain ⟨hmem, hchain⟩ := traceFrom_good evs initState (sessionInv_of_reset _ rfl)
  exact ⟨fun st hst => (hmem st hst).1, hchain⟩

/-- Witness for C5: after launching the diagnosis flow the reached
Session's step index is within the flow's length. -/
theorem stepIndex_bounded_and_monotone_witness :
    (⟨FlowState.diagnosing, [], [], 0⟩ : UserState).step ≤ DIAGNOSIS_STEPS.length :=
  (stepIndex_bounded_and_monotone
      [(⟨true, none, none, [], none, true, 0⟩, "u", "/diagnose")]).1
    ⟨FlowState.diagnosing, [], [], 0⟩ (by decide)
    ⟨true, none, none, [], none, true, 0⟩ DIAGNOSIS_STEPS rfl

/-- Witness for C9: a reminder instant one day in the past is not armed,
and the 48-hour assessment one-shot armed by answering "later" fires
after the (epoch) current time. -/
theorem past_oneshots_never_armed_witness :
    schedulePeriodReminder (dateMs 2025 4 27) "u" "2025-04-29" = [] ∧
    (0 : Int) ≤ 172800000 :=
  ⟨past_oneshots_never_armed.1 (dateMs 2025 4 27) "u" "2025-04-29" 2025 4 29
      (by decide) (by decide),
   past_oneshots_never_armed.2 ⟨true, none, none, [], none, true, 0⟩ "u"
      ⟨.awaiting_assessment_choice, [], [], 0⟩ "later"
      (Sched.assessmentOneShot "u" 172800000) (by decide) 172800000 (by decide)⟩

theorem getSession_setSession_ne (store : SessionStore) (uid : String) (st : UserState)
    (B : String) (h : B ≠ uid) :
    getSession (setSession store uid st) B = getSession store B := by
  induction store with
  | nil =>
    have hb : (B == uid) = false := by
      simp only [beq_eq_false_iff_ne, ne_eq]
      exact h
    simp [setSession, getSession, List.lookup, hb]
  | cons hd t ih =>
    rcases hd with ⟨k, v⟩
    unfold setSession
    by_cases hk : k = uid
    · have hb : (B == uid) = false := by
        simp only [beq_eq_false_iff_ne, ne_eq]
        exact h
      have hb2 : (B == k) = false := by
        simp only [beq_eq_false_iff_ne, ne_eq]
        rw [hk]
        exact h
      simp [hk, getSession, List.lookup, hb, hb2]
    · simp only [hk, if_false]
      unfold getSession List.lookup
      by_cases hbk : B = k
      · simp [hbk]
      · have hb2 : (B == k) = false := by
          simp only [beq_eq_false_iff_ne, ne_eq]
          exact hbk
        simp only [hb2]
        exact ih

theorem getSession_setSession_self (store : SessionStore) (uid : String) (st : UserState) :
    getSession (setSession store uid st) uid = st := by
  induction store with
  | nil => simp [setSession, getSession, List.lookup]
  | cons hd t ih =>
    rcases hd with ⟨k, v⟩
    unfold setSession
    by_cases hk : k = uid
    · simp [hk, getSession, List.lookup]
    · have hb : (uid == k) = false := by
        simp only [beq_eq_false_iff_ne, ne_eq]
        exact fun he => hk he.symm
      simp only [hk, if_false]
      unfold getSession List.lookup
      simp only [hb]
      exact ih

/-- C10: processing one inbound message from user A reads and writes only
A's entry of the session store — any other user's Session is untouched —
and the reply/effects and A's resulting Session depend only on A's prior
Session, A's message, and the collaborator responses (two-run
noninterference). -/
theorem message_handling_user_isolation :
    ∀ (store1 store2 : SessionStore) (env : Env) (A body B : String),
      (B ≠ A →
        getSession (processIncoming store1 env A body).1 B = getSession store1 B) ∧
      (getSession store1 A = getSession store2 A →
        (processIncoming store1 env A body).2 = (processIncoming store2 env A body).2 ∧
        getSession (processIncoming store1 env A body).1 A =
          getSession (processIncoming store2 env A body).1 A) := by
  intro store1 store2 env A body B
  constructor
  · intro hBA
    unfold processIncoming
    rcases hw : (handleMessage env A (getSession store1 A) body).writes with _ | ⟨w, ws⟩ <;>
      simp only [hw]
    exact getSession_setSession_ne store1 A _ B hBA
  · intro hA
    unfold processIncoming
    rw [hA]
    rcases hw : (handleMessage env A (getSession store2 A) body).writes with _ | ⟨w, ws⟩ <;>
      simp only [hw]
    · exact ⟨trivial, hA⟩
    · refine ⟨trivial, ?_⟩
      rw [getSession_setSession_self store1 A _, getSession_setSession_self store2 A _]

/-- Witness for C10 at concrete users and stores. -/
theorem message_handling_user_isolation_witness :
    getSession (processIncoming [("b", ⟨.assessing, [], [], 3⟩)]
        ⟨true, none, none, [], none, true, 0⟩ "a" "/diagnose").1 "b" =
      getSession [("b", ⟨.assessing, [], [], 3⟩)] "b" ∧
    (processIncoming [] ⟨true, none, none, [], none, true, 0⟩ "a" "/diagnose").2 =
      (processIncoming [("c", ⟨.meal, [], [], 1⟩)]
        ⟨true, none, none, [], none, true, 0⟩ "a" "/diagnose").2 :=
  ⟨(message_handling_user_isolation [("b", ⟨.assessing, [], [], 3⟩)] []
      ⟨true, none, none, [], none, true, 0⟩ "a" "/diagnose" "b").1 (by decide),
   ((message_handling_user_isolation [] [("c", ⟨.meal, [], [], 1⟩)]
      ⟨true, none, none, [], none, true, 0⟩ "a" "/diagnose" "b").2 (by decide)).1⟩

end Aliya

-- sanity examples kept as compiled checks of the embedding
example : Aliya.calculateHealthScore
    ⟨"good", "rarely", "3", "no", "4", "yes", "7", "often", "sometimes", "yes",
     "no", "no", "no", "2", "rarely", "no"⟩ = 85 := by decide
example :
    (Aliya.handleMessage ⟨true, none, none, [], some "ok", true, 0⟩ "u"
      ⟨.assessing, [], [], 0⟩ "MAYBE").replies =
    ["Please provide excellent, good, fair, or poor."] := by decide
example :
    (Aliya.finalStateOf ⟨.diagnosing, [("symptoms", "fever"), ("severity", "mild")], [], 2⟩
      (Aliya.handleMessage ⟨true, none, none, [], some "analysis", true, 0⟩ "u"
        ⟨.diagnosing, [("symptoms", "fever"), ("severity", "mild")], [], 2⟩ "3 days")) =
    Aliya.initState := by decide

-- sanity examples kept as compiled checks of the date model
example : Aliya.daysFromCivil 1970 1 1 = 0 := by decide
example : Aliya.civilFromDays 0 = (1970, 1, 1) := by decide
example : Aliya.civilFromDays (Aliya.daysFromCivil 2025 4 1 + 28) = (2025, 4, 29) := by decide
example : Aliya.parseIsoDate "2025-04-01" = some (2025, 4, 1) := by decide
example : Aliya.jsParseInt "28" = some 28 := by decide
example : Aliya.jsParseInt "3 apples" = some 3 := by decide
example : Aliya.jsParseInt "abc" = none := by decide
